import Mathlib

/-!
# Page Bootstrapper (`src/js/index.js`): a shallow embedding

The script drives a static portfolio page: it injects two fetched fragments,
reveals the page, wires the mobile menu, marks the active navigation link,
validates the contact form and runs a typewriter effect.

Modelling conventions

* A JavaScript string is a `List Char` (`Str`); one `Char` stands for one
  code unit, so `length`, `charAt` and `split` act position by position.
* `null` / `undefined` is `none`; a value is *truthy* when it is a non-empty
  string.
* A `classList` is the list of its tokens in order; `add`, `remove` and
  `toggle` follow `DOMTokenList`.
* The document is the markup of the `#navbar` placeholder, of the rest of the
  page and of the `#footer` placeholder, in that order; markup is a list of
  tokens (character data, start tags carrying their element, end tags) and
  `innerHTML` is its serialisation. A fetched fragment is given as the markup
  its text denotes, written with `class`, `href`, `data-page` in this order;
  attribute values and character data hold no character that serialisation
  escapes.
* The mobile menu is also modelled on the selected elements alone (`NavDom`);
  there the hamburger, the menu and the nav links are taken to be distinct
  elements.
* `setTimeout` appends an entry to a list of pending timers.
-/

namespace PageBootstrapper

/-! ## Strings and class lists -/

/-- JavaScript string, as the list of its code units. -/
abbrev Str := List Char

/-- The class token `'active'`. -/
def active : Str := "active".toList

/-- The class token `'hidden'`. -/
def hidden : Str := "hidden".toList

/-- The class token `'loaded'`. -/
def loaded : Str := "loaded".toList

/-- The fixed home identifier `'index.html'` (line 264). -/
def homePage : Str := "index.html".toList

/-- Truthiness of a possibly-null string: `null` and `''` are falsy. -/
def truthy : Option Str → Bool
  | some (_ :: _) => true
  | _ => false

/-- The JavaScript expression `a || b` on possibly-null strings. -/
def jsOr (a b : Option Str) : Option Str :=
  if truthy a then a else b

/-- The call `classList.contains(t)`. -/
def classContains (cs : List Str) (t : Str) : Bool := decide (t ∈ cs)

/-- The call `classList.remove(t)`. -/
def classRemove (cs : List Str) (t : Str) : List Str := cs.filter (fun c => decide (c ≠ t))

/-- The call `classList.add(t)`: appended unless already present. -/
def classAdd (cs : List Str) (t : Str) : List Str :=
  if t ∈ cs then cs else cs ++ [t]

/-- The call `classList.toggle(t)`: removed when present, appended otherwise. -/
def classToggle (cs : List Str) (t : Str) : List Str :=
  if t ∈ cs then classRemove cs t else cs ++ [t]

/-! ## Elements and listeners -/

/-- The two click listeners registered by `initializeMobileMenu`. -/
inductive Handler where
  /-- Lines 61-64: toggles `'active'` on the hamburger and on the menu. -/
  | toggleMenu
  /-- Lines 68-71: removes `'active'` from the hamburger and from the menu. -/
  | closeMenu
  deriving DecidableEq, Repr

/-- The part of a DOM element the script reads or writes. -/
structure Element where
  /-- The `classList` tokens. -/
  classes : List Str
  /-- The result of `getAttribute('href')`. -/
  href : Option Str
  /-- The result of `getAttribute('data-page')`. -/
  dataPage : Option Str
  /-- The click listeners, in registration order. -/
  listeners : List Handler
  deriving DecidableEq, Repr

/-- Whether the element carries the `'active'` class. -/
def Element.isActive (e : Element) : Bool := classContains e.classes active

/-! ## Active-navigation marker (`setActiveNavigation`, lines 263-276) -/

/-- The call `s.split(sep)` for a one-character separator: never empty. -/
def split (sep : Char) : Str → List Str
  | [] => [[]]
  | c :: cs =>
    if c = sep then [] :: split sep cs
    else
      match split sep cs with
      | [] => [[c]]
      | seg :: rest => (c :: seg) :: rest

/-- The expression `pathname.split('/').pop()`. -/
def lastSegment (pathname : Str) : Option Str := (split '/' pathname).getLast?

/-- Line 264: `pathname.split('/').pop() || 'index.html'`. -/
def currentPage (pathname : Str) : Str :=
  match jsOr (lastSegment pathname) (some homePage) with
  | some p => p
  | none => homePage

/-- Line 269: `link.getAttribute('href') || link.getAttribute('data-page')`. -/
def linkPage (link : Element) : Option Str := jsOr link.href link.dataPage

/-- The condition of lines 270-272. -/
def pageMatches (lp : Option Str) (cur : Str) : Bool :=
  decide (lp = some cur)
    || (decide (cur = []) && decide (lp = some homePage))
    || (decide (cur = homePage) && decide (lp = some homePage))

/-- The body of the `forEach` callback, lines 268-274. -/
def markLink (cur : Str) (link : Element) : Element :=
  let link := { link with classes := classRemove link.classes active }
  if pageMatches (linkPage link) cur then
    { link with classes := classAdd link.classes active }
  else link

/-- The function `setActiveNavigation` on the links found by
`querySelectorAll('.nav-link')`. -/
def setActiveNavigation (pathname : Str) (navLinks : List Element) : List Element :=
  navLinks.map (markLink (currentPage pathname))

/-! ## Mobile menu (`initializeMobileMenu`, lines 56-74) -/

/-- The elements the navigation code queries. -/
structure NavDom where
  /-- The result of `querySelector('.hamburger')`. -/
  hamburger : Option Element
  /-- The result of `querySelector('.nav-menu')`. -/
  navMenu : Option Element
  /-- The result of `querySelectorAll('.nav-link')`. -/
  navLinks : List Element
  deriving DecidableEq, Repr

/-- Appends a click listener to an element (`addEventListener`). -/
def Element.addListener (e : Element) (h : Handler) : Element :=
  { e with listeners := e.listeners ++ [h] }

/-- Applies a `classList` operation to an element. -/
def Element.onClasses (e : Element) (f : List Str → List Str) : Element :=
  { e with classes := f e.classes }

/-- The function `initializeMobileMenu`: when both elements exist, registers
the toggle listener on the hamburger and the close listener on every link. -/
def initializeMobileMenu (d : NavDom) : NavDom :=
  match d.hamburger, d.navMenu with
  | some h, some _ =>
    { d with
      hamburger := some (h.addListener Handler.toggleMenu)
      navLinks := d.navLinks.map (fun l => l.addListener Handler.closeMenu) }
  | _, _ => d

/-- Runs one listener body; the closures refer to the hamburger and the menu. -/
def runHandler (d : NavDom) : Handler → NavDom
  | Handler.toggleMenu =>
    { d with
      hamburger := d.hamburger.map (fun e => e.onClasses (fun cs => classToggle cs active))
      navMenu := d.navMenu.map (fun e => e.onClasses (fun cs => classToggle cs active)) }
  | Handler.closeMenu =>
    { d with
      hamburger := d.hamburger.map (fun e => e.onClasses (fun cs => classRemove cs active))
      navMenu := d.navMenu.map (fun e => e.onClasses (fun cs => classRemove cs active)) }

/-- Dispatches a click to an element: its listeners run in registration order. -/
def dispatchClick (d : NavDom) (target : Element) : NavDom :=
  target.listeners.foldl runHandler d

/-- A click on the hamburger control. -/
def clickHamburger (d : NavDom) : NavDom :=
  match d.hamburger with
  | some h => dispatchClick d h
  | none => d

/-- A click on the nav link at position `i`. -/
def clickNavLink (d : NavDom) (i : Nat) : NavDom :=
  match d.navLinks.get? i with
  | some l => dispatchClick d l
  | none => d

/-! ## Email pattern (`isValidEmail`, lines 208-211) -/

/-- The characters matched by the regular-expression escape `\s`. -/
def isWhiteSpace (c : Char) : Bool :=
  let n := c.toNat
  n == 0x09 || n == 0x0a || n == 0x0b || n == 0x0c || n == 0x0d || n == 0x20
    || n == 0xa0 || n == 0x1680 || (0x2000 ≤ n && n ≤ 0x200a)
    || n == 0x2028 || n == 0x2029 || n == 0x202f || n == 0x205f || n == 0x3000
    || n == 0xfeff

/-- A one-character matcher of the pattern language. -/
inductive CharSet where
  /-- A literal character, such as `@` or the escaped `\.`. -/
  | lit (c : Char)
  /-- A negated class `[^\s…]`: neither white space nor one of the listed characters. -/
  | notSpaceNor (cs : List Char)
  deriving Repr

/-- Whether a character belongs to the set. -/
def CharSet.test : CharSet → Char → Bool
  | CharSet.lit a, c => c == a
  | CharSet.notSpaceNor cs, c => !isWhiteSpace c && !cs.contains c

/-- A pattern item: a character set, taken once or one-or-more times (`+`). -/
inductive Piece where
  /-- Exactly one character of the set. -/
  | one (a : CharSet)
  /-- One or more characters of the set (greedy `+`). -/
  | plus (a : CharSet)
  deriving Repr

/-- Backtracking match of a sequence of items against the whole input, that
is, of the pattern written between `^` and `$`. A `+` item first tries to
take one more character and falls back to the next item. -/
def matchAnchored (ps : List Piece) (s : Str) : Bool :=
  match s, ps with
  | [], [] => true
  | [], _ :: _ => false
  | _ :: _, [] => false
  | c :: cs, Piece.one a :: rest => a.test c && matchAnchored rest cs
  | c :: cs, Piece.plus a :: rest =>
    a.test c && (matchAnchored (Piece.plus a :: rest) cs || matchAnchored rest cs)

/-- Line 209: the pattern `/^[^\s@]+@[^\s@]+\.[^\s@]+$/`. -/
def emailRegex : List Piece :=
  [ Piece.plus (CharSet.notSpaceNor ['@']), Piece.one (CharSet.lit '@'),
    Piece.plus (CharSet.notSpaceNor ['@']), Piece.one (CharSet.lit '.'),
    Piece.plus (CharSet.notSpaceNor ['@']) ]

/-- The function `isValidEmail`: `emailRegex.test(email)`. -/
def isValidEmail (email : Str) : Bool := matchAnchored emailRegex email

/-- The parts the specification of the pattern speaks of: a non-empty string
with no white-space character and no `@`. -/
def plainPart (x : Str) : Bool :=
  !x.isEmpty && x.all (fun c => !isWhiteSpace c && c != '@')

/-- String conversion of a possibly-null argument, as `RegExp.prototype.test`
applies it: `null` becomes `'null'`. -/
def toJsString : Option Str → Str
  | some s => s
  | none => "null".toList

/-! ## Markup and selectors -/

/-- The class token `'nav-link'`. -/
def navLinkClass : Str := "nav-link".toList

/-- The class token `'hamburger'`. -/
def hamburgerClass : Str := "hamburger".toList

/-- The class token `'nav-menu'`. -/
def navMenuClass : Str := "nav-menu".toList

/-- A token of serialised markup. -/
inductive Token where
  /-- Character data, as it is written in the markup. -/
  | text (s : Str)
  /-- A start tag, with the element it opens. -/
  | openTag (tag : Str) (e : Element)
  /-- An end tag. -/
  | closeTag (tag : Str)
  deriving DecidableEq, Repr

/-- Markup: the tokens of a fragment or of a region of the document. -/
abbrev Markup := List Token

/-- The value of a `class` attribute: the tokens separated by one space. -/
def joinClasses : List Str → Str
  | [] => []
  | [c] => c
  | c :: d :: cs => c ++ ' ' :: joinClasses (d :: cs)

/-- The serialisation of one attribute, nothing when it is absent. -/
def attrHtml (name : Str) : Option Str → Str
  | none => []
  | some v => ' ' :: name ++ '=' :: '"' :: v ++ ['"']

/-- The `class` attribute of an element: absent when it has no token. -/
def classAttr (e : Element) : Option Str :=
  if e.classes = [] then none else some (joinClasses e.classes)

/-- The serialisation of a token; listeners are not part of it. -/
def Token.html : Token → Str
  | Token.text s => s
  | Token.openTag tag e =>
    '<' :: tag ++ attrHtml "class".toList (classAttr e) ++ attrHtml "href".toList e.href
      ++ attrHtml "data-page".toList e.dataPage ++ ['>']
  | Token.closeTag tag => '<' :: '/' :: tag ++ ['>']

/-- The serialisation of markup: what reading `innerHTML` returns and what a
fetched fragment's text is. -/
def render (m : Markup) : Str := m.foldr (fun t acc => t.html ++ acc) []

/-- The element a token opens, if it is a start tag. -/
def Token.element? : Token → Option Element
  | Token.openTag _ e => some e
  | _ => none

/-- Applies a function to the element of a start tag. -/
def Token.mapElement (f : Element → Element) : Token → Token
  | Token.openTag tag e => Token.openTag tag (f e)
  | t => t

/-- The call `querySelectorAll('.c')` on markup: the elements carrying the
class, in document order. -/
def querySelectorAll (c : Str) (m : Markup) : List Element :=
  (m.filterMap Token.element?).filter (fun e => classContains e.classes c)

/-- The call `querySelector('.c')`: the first such element, or `null`. -/
def querySelector (c : Str) (m : Markup) : Option Element :=
  (querySelectorAll c m).head?

/-- The loop `querySelectorAll('.c').forEach(f)` for a callback that changes
the element it is given. -/
def forEachOf (c : Str) (f : Element → Element) (m : Markup) : Markup :=
  m.map (Token.mapElement (fun e => if classContains e.classes c then f e else e))

/-- Changes the element `querySelector('.c')` returns, if there is one. -/
def updateFirst (c : Str) (f : Element → Element) : Markup → Markup
  | [] => []
  | Token.openTag tag e :: rest =>
    if classContains e.classes c then Token.openTag tag (f e) :: rest
    else Token.openTag tag e :: updateFirst c f rest
  | Token.text s :: rest => Token.text s :: updateFirst c f rest
  | Token.closeTag tag :: rest => Token.closeTag tag :: updateFirst c f rest

/-- The element as markup shows it: without its listeners. -/
def Element.shown (e : Element) : Element := { e with listeners := [] }

/-- Markup with the listeners of its elements left out. -/
def shown (m : Markup) : Markup := m.map (Token.mapElement Element.shown)

/-! ## Page state -/

/-- A form control: its current value and the value `reset()` restores. -/
structure Field where
  /-- The current value. -/
  value : Str
  /-- The default value. -/
  defaultValue : Str
  deriving DecidableEq, Repr

/-- The named controls of `#contactForm`; a control that is absent is `none`. -/
structure ContactForm where
  /-- The control named `name`. -/
  name : Option Field
  /-- The control named `email`. -/
  email : Option Field
  /-- The control named `company`. -/
  company : Option Field
  /-- The control named `subject`. -/
  subject : Option Field
  /-- The control named `message`. -/
  message : Option Field
  deriving DecidableEq, Repr

/-- The call `formData.get(k)` for the control `f`: its value, or `null`. -/
def formGet (f : Option Field) : Option Str := f.map Field.value

/-- The call `contactForm.reset()`: every control returns to its default. -/
def ContactForm.reset (f : ContactForm) : ContactForm :=
  let r : Option Field → Option Field :=
    Option.map (fun c => { c with value := c.defaultValue })
  { name := r f.name, email := r f.email, company := r f.company,
    subject := r f.subject, message := r f.message }

/-- The inline message element built by `showMessage`. -/
structure FormMessage where
  /-- The `className`, `form-message ` followed by the type. -/
  className : Str
  /-- The `textContent`. -/
  textContent : Str
  /-- Whether the success colours were chosen (line 230). -/
  successStyle : Bool
  deriving DecidableEq, Repr

/-- The callbacks handed to `setTimeout`. -/
inductive TimerAction where
  /-- Line 47: `loadingScreen.remove()`. -/
  | removeLoadingScreen
  /-- Lines 91-92: the fallback initialisation. -/
  | fallbackInit
  /-- Line 243: `message.remove()`. -/
  | removeMessage (m : FormMessage)
  deriving DecidableEq, Repr

/-- The document state the script works on. -/
structure Page where
  /-- The value of `window.location.pathname`. -/
  pathname : Str
  /-- The children of `#navbar`, when that element exists. -/
  navbarNodes : Option Markup
  /-- The markup of the page between the two placeholders. -/
  bodyNodes : Markup
  /-- The children of `#footer`, when that element exists. -/
  footerNodes : Option Markup
  /-- The `classList` of `#loadingScreen`, when that element is in the document. -/
  loadingScreen : Option (List Str)
  /-- The `classList` of `document.body`. -/
  bodyClasses : List Str
  /-- The element `#contactForm`, when it exists. -/
  contactForm : Option ContactForm
  /-- The `.form-message` elements, which follow the form, in document order. -/
  messages : List FormMessage
  /-- Whether the submit listener of lines 118-143 is registered. -/
  submitWired : Bool
  /-- The pending timers: delay in milliseconds and callback. -/
  timers : List (Nat × TimerAction)
  deriving DecidableEq, Repr

/-- The value of `navbar.innerHTML`, when `#navbar` exists. -/
def Page.navbar (s : Page) : Option Str := s.navbarNodes.map render

/-- The value of `footer.innerHTML`, when `#footer` exists. -/
def Page.footer (s : Page) : Option Str := s.footerNodes.map render

/-- The markup the selector queries of `document` run over. -/
def Page.document (s : Page) : Markup :=
  s.navbarNodes.getD [] ++ s.bodyNodes ++ s.footerNodes.getD []

/-- The loop `document.querySelectorAll('.c').forEach(f)`. -/
def Page.onEach (s : Page) (c : Str) (f : Element → Element) : Page :=
  { s with
    navbarNodes := s.navbarNodes.map (forEachOf c f)
    bodyNodes := forEachOf c f s.bodyNodes
    footerNodes := s.footerNodes.map (forEachOf c f) }

/-- Changes the element `document.querySelector('.c')` returns, if any. -/
def Page.onFirst (s : Page) (c : Str) (f : Element → Element) : Page :=
  if (querySelector c (s.navbarNodes.getD [])).isSome then
    { s with navbarNodes := s.navbarNodes.map (updateFirst c f) }
  else if (querySelector c s.bodyNodes).isSome then
    { s with bodyNodes := updateFirst c f s.bodyNodes }
  else
    { s with footerNodes := s.footerNodes.map (updateFirst c f) }

/-- The function `setActiveNavigation` on the document: the callback of lines
268-274 runs on every `.nav-link` element. -/
def Page.setActiveNavigation (s : Page) : Page :=
  s.onEach navLinkClass (markLink (currentPage s.pathname))

/-- The function `initializeMobileMenu` on the document: when a hamburger and
a menu exist, the toggle listener goes to the hamburger and the close listener
to every `.nav-link` element. -/
def Page.initializeMobileMenu (s : Page) : Page :=
  match querySelector hamburgerClass s.document, querySelector navMenuClass s.document with
  | some _, some _ =>
    (s.onFirst hamburgerClass (fun e => e.addListener Handler.toggleMenu)).onEach
      navLinkClass (fun e => e.addListener Handler.closeMenu)
  | _, _ => s

/-- The elements the navigation code finds in the document. -/
def Page.navDom (s : Page) : NavDom :=
  { hamburger := querySelector hamburgerClass s.document
    navMenu := querySelector navMenuClass s.document
    navLinks := querySelectorAll navLinkClass s.document }

/-! ## Contact form (`showMessage`, lines 213-246; submit listener, lines 118-143) -/

/-- The message type `'error'`. -/
def errorType : Str := "error".toList

/-- The message type `'success'`. -/
def successType : Str := "success".toList

/-- The text of line 131. -/
def fillFieldsText : Str := "Please fill in all required fields.".toList

/-- The text of line 136. -/
def invalidEmailText : Str := "Please enter a valid email address.".toList

/-- The text of line 141. -/
def thankYouText : Str := "Thank you for your message! I will get back to you soon.".toList

/-- The function `showMessage`: the first existing message is removed, a new
one is built and, when the form exists, inserted right after it, ahead of the
messages already there, with a 5000 ms removal timer. -/
def showMessage (s : Page) (text type : Str) : Page :=
  let remaining := s.messages.tail
  let message : FormMessage :=
    { className := "form-message ".toList ++ type
      textContent := text
      successStyle := decide (type = successType) }
  match s.contactForm with
  | some _ =>
    { s with
      messages := message :: remaining
      timers := s.timers ++ [(5000, TimerAction.removeMessage message)] }
  | none => { s with messages := remaining }

/-- The submit listener of lines 118-143, run on the form `#contactForm`. -/
def submitHandler (s : Page) : Page :=
  match s.contactForm with
  | none => s
  | some form =>
    let name := formGet form.name
    let email := formGet form.email
    let subject := formGet form.subject
    let message := formGet form.message
    if !truthy name || !truthy email || !truthy subject || !truthy message then
      showMessage s fillFieldsText errorType
    else if !isValidEmail (toJsString email) then
      showMessage s invalidEmailText errorType
    else
      let s := showMessage s thankYouText successType
      { s with contactForm := some form.reset }

/-- Dispatch of a submit event: the listener runs when it is registered. -/
def submitEvent (s : Page) : Page :=
  if s.submitWired then submitHandler s else s

/-! ## Fragment loader (`loadComponents`, lines 2-36) -/

/-- What the promise returned by `fetch(url)` settles to. A network failure
rejects it; any HTTP response, whatever its status, fulfils it. The body is
given as the markup its text denotes: the text is `render body`. -/
inductive FetchOutcome where
  /-- The request could not be completed: the promise rejects. -/
  | networkError
  /-- A response arrived, with its status code and its body. -/
  | response (status : Nat) (body : Markup)
  deriving DecidableEq, Repr

/-- The promise `fetch(url).then(response => response.text())`: rejected, or
fulfilled with the body. The status is not inspected. -/
def fetchText : FetchOutcome → Option Markup
  | FetchOutcome.networkError => none
  | FetchOutcome.response _ body => some body

/-- The call `Promise.all([navbarPromise, footerPromise])`: fulfilled with both
values when both are fulfilled, rejected otherwise. -/
def promiseAll (a b : Option Markup) : Option (Markup × Markup) :=
  match a, b with
  | some x, some y => some (x, y)
  | _, _ => none

/-- The statement `if (el) { el.innerHTML = html; }` on a placeholder: its
children become the markup the text denotes. -/
def setInnerHTML (placeholder : Option Markup) (html : Markup) : Option Markup :=
  placeholder.map (fun _ => html)

/-- The function `loadComponents`. The two outcomes are those of the requests
for `navbar.html` and `footer.html`. Returns the new state and the success
flag. -/
def loadComponents (s : Page) (navbarFetch footerFetch : FetchOutcome) : Page × Bool :=
  match promiseAll (fetchText navbarFetch) (fetchText footerFetch) with
  | some (navbarHTML, footerHTML) =>
    let s := { s with navbarNodes := setInnerHTML s.navbarNodes navbarHTML }
    let s := { s with footerNodes := setInnerHTML s.footerNodes footerHTML }
    let s := s.setActiveNavigation
    let s := s.initializeMobileMenu
    (s, true)
  | none => (s, false)

/-! ## Page reveal (`showPage`, lines 39-53) and the `DOMContentLoaded` listener -/

/-- The function `showPage`. -/
def showPage (s : Page) : Page :=
  let s :=
    match s.loadingScreen with
    | some cs =>
      { s with
        loadingScreen := some (classAdd cs hidden)
        timers := s.timers ++ [(300, TimerAction.removeLoadingScreen)] }
    | none => s
  { s with bodyClasses := classAdd s.bodyClasses loaded }

/-- The `DOMContentLoaded` listener, lines 77-205, on the state modelled here:
fragments, reveal, fallback timer, submit listener, final marking pass. The
100 ms wait of line 83 changes no state; `loadComponents` catches its own
failures, so the `catch` of lines 95-99 is never entered; the listeners of
lines 101-113 and 146-201 only touch styles, scrolling and the hero title. -/
def domContentLoaded (s : Page) (navbarFetch footerFetch : FetchOutcome) : Page :=
  let (s, componentsLoaded) := loadComponents s navbarFetch footerFetch
  let s := showPage s
  let s :=
    if !componentsLoaded then
      { s with timers := s.timers ++ [(100, TimerAction.fallbackInit)] }
    else s
  let s := { s with submitWired := s.submitWired || s.contactForm.isSome }
  s.setActiveNavigation

/-- Runs the callback of a timer that has come due. -/
def runTimer (s : Page) : TimerAction → Page
  | TimerAction.removeLoadingScreen => { s with loadingScreen := none }
  | TimerAction.fallbackInit => s.initializeMobileMenu.setActiveNavigation
  | TimerAction.removeMessage m => { s with messages := s.messages.erase m }

/-- Fires the first pending timer, if any. -/
def fireTimer (s : Page) : Page :=
  match s.timers with
  | [] => s
  | (_, a) :: rest => runTimer { s with timers := rest } a

/-! ## Typewriter (`typeWriter`, lines 248-261) -/

/-- The element and the closure state of one `typeWriter` call. -/
structure Typing where
  /-- The `textContent` of the element. -/
  textContent : Str
  /-- The counter `i`. -/
  i : Nat
  /-- The number of pending `setTimeout(type, speed)` timers. -/
  pending : Nat
  /-- How many times the inner function `type` has run. -/
  invocations : Nat
  deriving DecidableEq, Repr

/-- The call `text.charAt(i)`: the empty string when `i` is out of range. -/
def charAt (text : Str) (i : Nat) : Str :=
  match text.get? i with
  | some c => [c]
  | none => []

/-- One run of the inner function `type`, lines 252-258. -/
def typeStep (text : Str) (t : Typing) : Typing :=
  let t := { t with invocations := t.invocations + 1 }
  if t.i < text.length then
    { t with
      textContent := t.textContent ++ charAt text t.i
      i := t.i + 1
      pending := t.pending + 1 }
  else t

/-- The function `typeWriter` up to its first call of `type`: the element is
emptied and the counter starts at zero. -/
def typeWriterStart (_initialContent : Str) : Typing :=
  { textContent := [], i := 0, pending := 0, invocations := 0 }

/-- The function `typeWriter`: start, then the synchronous first call of `type`. -/
def typeWriter (initialContent text : Str) : Typing :=
  typeStep text (typeWriterStart initialContent)

/-- A timer tick: a pending timer, if there is one, fires and runs `type`. -/
def tick (text : Str) (t : Typing) : Typing :=
  if 0 < t.pending then typeStep text { t with pending := t.pending - 1 } else t

/-- The state after `typeWriter` and `k` timer ticks. -/
def runTicks (initialContent text : Str) (k : Nat) : Typing :=
  (tick text)^[k] (typeWriter initialContent text)

/-! ## Sample states -/

/-- A contact form filled in with a well-formed address and no company. -/
def sampleForm : ContactForm :=
  { name := some ⟨"Ann".toList, []⟩
    email := some ⟨"a@b.co".toList, []⟩
    company := some ⟨[], []⟩
    subject := some ⟨"Hello".toList, []⟩
    message := some ⟨"Hi there".toList, []⟩ }

/-- A page with both placeholders, a loading overlay and the sample form. -/
def samplePage : Page :=
  { pathname := "/contact.html".toList
    navbarNodes := some [Token.openTag "nav".toList ⟨[], none, none, []⟩,
      Token.closeTag "nav".toList]
    bodyNodes := []
    footerNodes := some []
    loadingScreen := some ["loading-screen".toList]
    bodyClasses := []
    contactForm := some sampleForm
    messages := []
    submitWired := true
    timers := [] }

/-- The home page of the site, its placeholders still empty. -/
def sampleHomePage : Page := { samplePage with pathname := "/index.html".toList }

/-- The fragment `<a class="nav-link" href="index.html">Home</a>`. -/
def homeLinkFragment : Markup :=
  [ Token.openTag "a".toList
      ⟨["nav-link".toList], some "index.html".toList, none, []⟩,
    Token.text "Home".toList, Token.closeTag "a".toList ]

/-- The fragment `<p>footer</p>`. -/
def footerFragment : Markup :=
  [ Token.openTag "p".toList ⟨[], none, none, []⟩, Token.text "footer".toList,
    Token.closeTag "p".toList ]

/-- The body `Not Found` of an error response. -/
def notFoundBody : Markup := [Token.text "Not Found".toList]

/-- The sample form with the subject left empty. -/
def incompleteForm : ContactForm := { sampleForm with subject := some ⟨[], []⟩ }

/-- The sample page holding the incomplete form. -/
def incompletePage : Page := { samplePage with contactForm := some incompleteForm }

/-- A nav link to the home page. -/
def homeLink : Element :=
  { classes := ["nav-link".toList], href := some "index.html".toList, dataPage := none,
    listeners := [] }

/-- A nav link to the contact page. -/
def contactLink : Element :=
  { classes := ["nav-link".toList], href := some "contact.html".toList, dataPage := none,
    listeners := [] }

/-- A nav link whose href names one page and whose data-page names another. -/
def shadowedLink : Element :=
  { classes := ["nav-link".toList], href := some "about.html".toList,
    dataPage := some "index.html".toList, listeners := [] }

/-! # Properties -/

/-! ## Splitting a path -/

theorem split_ne_nil (sep : Char) (s : Str) : split sep s ≠ [] := by
  induction s with
  | nil => simp [split]
  | cons c cs ih =>
    unfold split
    split_ifs
    · simp
    · cases h : split sep cs <;> simp

theorem getLast?_cons_of_ne_nil {α : Type} (x : α) (l : List α) (h : l ≠ []) :
    (x :: l).getLast? = l.getLast? := by
  cases l with
  | nil => exact absurd rfl h
  | cons y ys => simp [List.getLast?_cons_cons]

theorem split_length (sep : Char) (s : Str) : (split sep s).length = s.count sep + 1 := by
  induction s with
  | nil => simp [split]
  | cons c cs ih =>
    unfold split
    by_cases hc : c = sep
    · subst hc; simp [ih]
    · simp only [if_neg hc]
      cases hs : split sep cs with
      | nil => exact absurd hs (split_ne_nil sep cs)
      | cons sg rest =>
        rw [hs] at ih
        rw [List.count_cons_of_ne (fun h => hc h.symm)]
        simpa using ih

theorem split_getLast (sep : Char) (s : Str) :
    ∃ seg, (split sep s).getLast? = some seg ∧ sep ∉ seg ∧
      (s = seg ∨ ∃ pre, s = pre ++ sep :: seg) := by
  induction s with
  | nil => exact ⟨[], by simp [split]⟩
  | cons c cs ih =>
    obtain ⟨seg, h1, h2, h3⟩ := ih
    unfold split
    by_cases hc : c = sep
    · subst hc
      simp only [if_true]
      refine ⟨seg, ?_, h2, Or.inr ?_⟩
      · rw [getLast?_cons_of_ne_nil _ _ (split_ne_nil c cs)]; exact h1
      · rcases h3 with h3 | ⟨pre, h3⟩
        · exact ⟨[], by simp [h3]⟩
        · exact ⟨c :: pre, by rw [h3]; simp⟩
    · simp only [if_neg hc]
      cases hs : split sep cs with
      | nil => exact absurd hs (split_ne_nil sep cs)
      | cons sg rest =>
        rw [hs] at h1
        cases rest with
        | nil =>
          simp at h1
          subst h1
          simp only [List.getLast?_singleton]
          refine ⟨c :: sg, rfl, ?_, ?_⟩
          · simp [h2]; exact fun h => hc h.symm
          · rcases h3 with h3 | ⟨pre, h3⟩
            · left; rw [h3]
            · exfalso
              have hl := split_length sep cs
              rw [hs, h3] at hl
              simp at hl
        | cons r rs =>
          refine ⟨seg, ?_, h2, ?_⟩
          · simpa [List.getLast?_cons_cons] using h1
          · rcases h3 with h3 | ⟨pre, h3⟩
            · exfalso
              have hl := split_length sep cs
              rw [hs, h3, List.count_eq_zero_of_not_mem h2] at hl
              simp at hl
            · exact Or.inr ⟨c :: pre, by rw [h3]; simp⟩

/-! ## Current page identifier -/

theorem homePage_ne_nil : homePage ≠ [] := by decide

theorem currentPage_of_lastSegment (p : Str) (seg : Str) (h : lastSegment p = some seg) :
    currentPage p = if seg = [] then homePage else seg := by
  unfold currentPage jsOr
  rw [h]
  cases seg with
  | nil => simp [truthy]
  | cons c cs => simp [truthy]

theorem currentPage_ne_nil (p : Str) : currentPage p ≠ [] := by
  obtain ⟨seg, h1, _, _⟩ := split_getLast '/' p
  rw [currentPage_of_lastSegment p seg h1]
  by_cases hs : seg = []
  · simp [hs, homePage_ne_nil]
  · simp [hs]

/-- Claim C8 (amended): for every pathname the page identifier is the last
`/`-separated segment, replaced by `index.html` when that segment is empty; it
equals `index.html` exactly when the segment is empty or is `index.html`
itself, and it is never the empty string. -/
theorem currentPage_eq_lastSegment_or_home (pathname : Str) :
    ∃ seg : Str, lastSegment pathname = some seg
      ∧ '/' ∉ seg ∧ (pathname = seg ∨ ∃ pre, pathname = pre ++ '/' :: seg)
      ∧ currentPage pathname = (if seg = [] then homePage else seg)
      ∧ (currentPage pathname = homePage ↔ seg = [] ∨ seg = homePage)
      ∧ currentPage pathname ≠ [] := by
  obtain ⟨seg, h1, h2, h3⟩ := split_getLast '/' pathname
  have hc := currentPage_of_lastSegment pathname seg h1
  refine ⟨seg, h1, h2, h3, hc, ?_, ?_⟩
  · rw [hc]
    by_cases hs : seg = []
    · simp [hs]
    · simp [hs]
  · rw [hc]
    by_cases hs : seg = []
    · simp [hs, homePage_ne_nil]
    · simp [hs]

/-- Claim C8 as stated fails for the path `/index.html`: the identifier is
`index.html` although the last segment is not empty. -/
theorem currentPage_home_not_only_when_empty :
    ¬ (currentPage "/index.html".toList = homePage
        ↔ lastSegment "/index.html".toList = some []) := by decide

theorem currentPage_examples :
    currentPage "/".toList = homePage ∧ currentPage "/dir/".toList = homePage
      ∧ currentPage "".toList = homePage
      ∧ currentPage "/site/about.html".toList = "about.html".toList := by decide


/-! ## Class lists -/

theorem mem_classRemove (cs : List Str) (t u : Str) :
    u ∈ classRemove cs t ↔ u ∈ cs ∧ u ≠ t := by
  simp [classRemove]

theorem mem_classAdd (cs : List Str) (t u : Str) :
    u ∈ classAdd cs t ↔ u ∈ cs ∨ u = t := by
  unfold classAdd
  split_ifs with h
  · constructor
    · exact Or.inl
    · rintro (h1 | h1)
      · exact h1
      · rw [h1]; exact h
  · simp

theorem mem_classToggle (cs : List Str) (t u : Str) :
    u ∈ classToggle cs t ↔ (u ∈ cs ∧ u ≠ t) ∨ (u = t ∧ t ∉ cs) := by
  unfold classToggle
  split_ifs with h
  · rw [mem_classRemove]; simp [h]
  · simp only [List.mem_append, List.mem_singleton]
    constructor
    · rintro (h1 | h1)
      · exact Or.inl ⟨h1, fun e => h (e ▸ h1)⟩
      · exact Or.inr ⟨h1, h⟩
    · rintro (⟨h1, _⟩ | ⟨h1, _⟩)
      · exact Or.inl h1
      · exact Or.inr h1

/-! ## Marking pass -/

theorem pageMatches_eq (lp : Option Str) (cur : Str) (hcur : cur ≠ []) :
    pageMatches lp cur = decide (lp = some cur) := by
  unfold pageMatches
  by_cases h : lp = some cur
  · simp [h]
  · by_cases h2 : cur = homePage
    · subst h2; simp [h, hcur]
    · simp [h, hcur, h2]

theorem markLink_isActive (cur : Str) (l : Element) :
    (markLink cur l).isActive = pageMatches (linkPage l) cur := by
  unfold markLink
  simp only [linkPage]
  split_ifs with h
  · simp [Element.isActive, classContains, mem_classAdd, h]
  · simp [Element.isActive, classContains, mem_classRemove, h]

theorem markLink_attrs (cur : Str) (l : Element) :
    (markLink cur l).href = l.href ∧ (markLink cur l).dataPage = l.dataPage
      ∧ (markLink cur l).listeners = l.listeners := by
  unfold markLink
  simp only
  split_ifs <;> simp

theorem markLink_other_tokens (cur : Str) (l : Element) (t : Str) (ht : t ≠ active) :
    t ∈ (markLink cur l).classes ↔ t ∈ l.classes := by
  unfold markLink
  simp only
  split_ifs <;> simp [mem_classAdd, mem_classRemove, ht]

theorem linkPage_eq_iff (l : Element) (cur : Str) (hcur : cur ≠ []) :
    linkPage l = some cur ↔
      l.href = some cur ∨ ((l.href = none ∨ l.href = some []) ∧ l.dataPage = some cur) := by
  unfold linkPage jsOr
  rcases hh : l.href with _ | (_ | ⟨c, cs⟩)
  · simp [truthy]
  · simp [truthy, hcur.symm]
  · simp [truthy]

/-- The link matches the current page in the sense of line 269-270. -/
theorem setActiveNavigation_isActive (pathname : Str) (links : List Element) :
    (setActiveNavigation pathname links).map Element.isActive
      = links.map (fun l => decide (linkPage l = some (currentPage pathname))) := by
  unfold setActiveNavigation
  rw [List.map_map]
  apply List.map_congr_left
  intro l _
  simp only [Function.comp]
  rw [markLink_isActive, pageMatches_eq _ _ (currentPage_ne_nil pathname)]

/-- Claim C1 (amended): after the marking pass the links carrying `active` are
exactly the marked copies of the links whose page (href, or data-page when href
is missing or empty) equals the current page identifier, so there are as many
active links as matching links: one when one link matches, none when none does. -/
theorem setActiveNavigation_active_eq_matching (pathname : Str) (links : List Element) :
    (setActiveNavigation pathname links).filter Element.isActive
        = (links.filter (fun l => decide (linkPage l = some (currentPage pathname)))).map
            (markLink (currentPage pathname))
      ∧ ((setActiveNavigation pathname links).filter Element.isActive).length
        = (links.filter (fun l => decide (linkPage l = some (currentPage pathname)))).length := by
  have h : (setActiveNavigation pathname links).filter Element.isActive
        = (links.filter (fun l => decide (linkPage l = some (currentPage pathname)))).map
            (markLink (currentPage pathname)) := by
    unfold setActiveNavigation
    rw [List.filter_map]
    congr 1
    apply List.filter_congr
    intro l _
    simp only [Function.comp]
    rw [markLink_isActive, pageMatches_eq _ _ (currentPage_ne_nil pathname)]
  exact ⟨h, by rw [h, List.length_map]⟩

/-- Claim C1 as stated fails: on `/about.html` with a home link (marked before)
and a contact link no link is active afterwards, and on `/index.html` with two
links to `index.html` both are. -/
theorem setActiveNavigation_not_exactly_one :
    ¬ (((setActiveNavigation "/about.html".toList
          [{ homeLink with classes := ["nav-link".toList, active] }, contactLink]).filter
            Element.isActive).length = 1)
    ∧ ¬ (((setActiveNavigation "/index.html".toList [homeLink, homeLink]).filter
            Element.isActive).length = 1) := by
  decide

/-- Claim C7 (amended): after the marking pass a link carries `active` if and
only if its href equals the current page identifier, or its href is missing or
empty and its data-page equals it, whatever classes the links had before; the
attributes are left as they were. -/
theorem setActiveNavigation_active_iff (pathname : Str) (links : List Element) :
    (setActiveNavigation pathname links).map Element.isActive
        = links.map (fun l => decide (l.href = some (currentPage pathname)
            ∨ ((l.href = none ∨ l.href = some []) ∧ l.dataPage = some (currentPage pathname))))
      ∧ (setActiveNavigation pathname links).map Element.href = links.map Element.href
      ∧ (setActiveNavigation pathname links).map Element.dataPage = links.map Element.dataPage := by
  refine ⟨?_, ?_, ?_⟩
  · rw [setActiveNavigation_isActive]
    apply List.map_congr_left
    intro l _
    simp only [linkPage_eq_iff l _ (currentPage_ne_nil pathname)]
  · unfold setActiveNavigation
    rw [List.map_map]
    apply List.map_congr_left
    intro l _
    exact (markLink_attrs _ l).1
  · unfold setActiveNavigation
    rw [List.map_map]
    apply List.map_congr_left
    intro l _
    exact (markLink_attrs _ l).2.1

/-- Claim C7 as stated fails: on `/index.html` a link with href `about.html`
and data-page `index.html` has a data-page equal to the current page and is
not marked. -/
theorem setActiveNavigation_dataPage_shadowed :
    ¬ ((setActiveNavigation "/index.html".toList [shadowedLink]).map Element.isActive
      = [shadowedLink].map
          (fun l => decide (l.href = some (currentPage "/index.html".toList)
            ∨ l.dataPage = some (currentPage "/index.html".toList)))) := by
  decide

/-! ## Mobile menu -/

theorem mem_classToggle_twice (cs : List Str) (t u : Str) :
    u ∈ classToggle (classToggle cs t) t ↔ u ∈ cs := by
  rw [mem_classToggle, mem_classToggle, mem_classToggle]
  by_cases hu : u = t
  · subst hu
    by_cases hm : u ∈ cs <;> simp [hm]
  · simp [hu]

theorem classContains_classToggle (cs : List Str) (t : Str) :
    classContains (classToggle cs t) t = !classContains cs t := by
  unfold classContains
  by_cases hm : t ∈ cs <;> simp [mem_classToggle, hm]

/-- Claim C6: with the hamburger wired by one call of `initializeMobileMenu`,
one click flips `active` on the hamburger and on the menu, and two clicks
return both elements to their initial class sets, whatever these were. -/
theorem hamburger_click_twice (hc : List Str) (hHref hData : Option Str) (menu : Element)
    (links : List Element) :
    ∃ h1 m1 h2 m2 : Element,
      (clickHamburger (initializeMobileMenu
          ⟨some ⟨hc, hHref, hData, []⟩, some menu, links⟩)).hamburger = some h1
      ∧ (clickHamburger (initializeMobileMenu
          ⟨some ⟨hc, hHref, hData, []⟩, some menu, links⟩)).navMenu = some m1
      ∧ h1.isActive = !classContains hc active
      ∧ m1.isActive = !menu.isActive
      ∧ (clickHamburger (clickHamburger (initializeMobileMenu
          ⟨some ⟨hc, hHref, hData, []⟩, some menu, links⟩))).hamburger = some h2
      ∧ (clickHamburger (clickHamburger (initializeMobileMenu
          ⟨some ⟨hc, hHref, hData, []⟩, some menu, links⟩))).navMenu = some m2
      ∧ (∀ t, t ∈ h2.classes ↔ t ∈ hc)
      ∧ (∀ t, t ∈ m2.classes ↔ t ∈ menu.classes)
      ∧ h2.classes.toFinset = hc.toFinset
      ∧ m2.classes.toFinset = menu.classes.toFinset := by
  refine ⟨⟨classToggle hc active, hHref, hData, [Handler.toggleMenu]⟩,
    menu.onClasses (fun cs => classToggle cs active),
    ⟨classToggle (classToggle hc active) active, hHref, hData, [Handler.toggleMenu]⟩,
    (menu.onClasses (fun cs => classToggle cs active)).onClasses
      (fun cs => classToggle cs active), rfl, rfl, ?_, ?_, rfl, rfl, ?_, ?_, ?_, ?_⟩
  · exact classContains_classToggle hc active
  · exact classContains_classToggle menu.classes active
  · exact fun t => mem_classToggle_twice hc active t
  · exact fun t => mem_classToggle_twice menu.classes active t
  · ext t; simp only [List.mem_toFinset]; exact mem_classToggle_twice hc active t
  · ext t; simp only [List.mem_toFinset]; exact mem_classToggle_twice menu.classes active t

/-! ## Email pattern -/

theorem matchAnchored_nil (s : Str) : matchAnchored [] s = true ↔ s = [] := by
  cases s <;> simp [matchAnchored]

theorem matchAnchored_one (a : CharSet) (ps : List Piece) (s : Str) :
    matchAnchored (Piece.one a :: ps) s = true
      ↔ ∃ c t, s = c :: t ∧ a.test c = true ∧ matchAnchored ps t = true := by
  cases s with
  | nil => simp [matchAnchored]
  | cons c cs =>
    simp only [matchAnchored, Bool.and_eq_true, List.cons.injEq]
    constructor
    · rintro ⟨h1, h2⟩
      exact ⟨c, cs, ⟨rfl, rfl⟩, h1, h2⟩
    · rintro ⟨d, t, ⟨rfl, rfl⟩, h1, h2⟩
      exact ⟨h1, h2⟩

theorem matchAnchored_plus (a : CharSet) (ps : List Piece) (s : Str) :
    matchAnchored (Piece.plus a :: ps) s = true
      ↔ ∃ x t, x ≠ [] ∧ (∀ c ∈ x, a.test c = true) ∧ s = x ++ t
          ∧ matchAnchored ps t = true := by
  induction s with
  | nil =>
    simp only [matchAnchored]
    constructor
    · intro h; exact absurd h (by simp)
    · rintro ⟨x, t, hne, _, hs, _⟩
      cases x with
      | nil => exact absurd rfl hne
      | cons d x' => simp at hs
  | cons c cs ih =>
    rw [matchAnchored]
    simp only [Bool.and_eq_true, Bool.or_eq_true, ih]
    constructor
    · rintro ⟨hc, ⟨x, t, _, hx, rfl, ht⟩ | ht⟩
      · refine ⟨c :: x, t, by simp, ?_, by simp, ht⟩
        intro d hd
        rcases List.mem_cons.mp hd with rfl | hd
        · exact hc
        · exact hx d hd
      · exact ⟨[c], cs, by simp, by simpa using hc, by simp, ht⟩
    · rintro ⟨x, t, hne, hx, hs, ht⟩
      cases x with
      | nil => exact absurd rfl hne
      | cons d x' =>
        simp only [List.cons_append, List.cons.injEq] at hs
        obtain ⟨rfl, rfl⟩ := hs
        refine ⟨hx c (by simp), ?_⟩
        cases x' with
        | nil => right; simpa using ht
        | cons e x'' =>
          left
          exact ⟨e :: x'', t, by simp, fun y hy => hx y (List.mem_cons_of_mem _ hy), rfl, ht⟩

theorem notSpaceNor_at_test (c : Char) :
    (CharSet.notSpaceNor ['@']).test c = true ↔ isWhiteSpace c = false ∧ c ≠ '@' := by
  simp [CharSet.test]

theorem lit_test (a c : Char) : (CharSet.lit a).test c = true ↔ c = a := by
  simp [CharSet.test]

theorem plainPart_iff (x : Str) :
    plainPart x = true ↔ x ≠ [] ∧ ∀ c ∈ x, isWhiteSpace c = false ∧ c ≠ '@' := by
  unfold plainPart
  cases x <;> simp

theorem isValidEmail_iff (s : Str) :
    isValidEmail s = true
      ↔ ∃ a b c : Str, s = a ++ "@".toList ++ b ++ ".".toList ++ c
          ∧ plainPart a = true ∧ plainPart b = true ∧ plainPart c = true := by
  unfold isValidEmail emailRegex
  simp only [plainPart_iff]
  simp only [matchAnchored_plus, matchAnchored_one, matchAnchored_nil, notSpaceNor_at_test,
    lit_test]
  constructor
  · rintro ⟨a, t1, ha, hat, rfl, _, t2, rfl, rfl, b, t3, hb, hbt, rfl, _, t4, rfl, rfl,
      c, t5, hc, hct, rfl, rfl⟩
    exact ⟨a, b, c, by simp, ⟨ha, hat⟩, ⟨hb, hbt⟩, ⟨hc, hct⟩⟩
  · rintro ⟨a, b, c, rfl, ⟨ha, hat⟩, ⟨hb, hbt⟩, ⟨hc, hct⟩⟩
    exact ⟨a, '@' :: (b ++ '.' :: c), ha, hat, by simp, '@', b ++ '.' :: c, rfl, rfl,
      b, '.' :: c, hb, hbt, rfl, '.', c, rfl, rfl, c, [], hc, hct, by simp, rfl⟩

theorem count_at_plainPart (x : Str) (h : plainPart x = true) : x.count '@' = 0 := by
  rw [plainPart_iff] at h
  exact List.count_eq_zero_of_not_mem (fun hm => (h.2 _ hm).2 rfl)

/-- Claim C10: `isValidEmail s` holds if and only if `s` is `a@b.c` with `a`,
`b`, `c` non-empty and free of white space and of `@`; an accepted address has
exactly one `@`, no white space, and a `.` after the `@` that neither follows
it directly nor ends the string. -/
theorem isValidEmail_characterisation (s : Str) :
    (isValidEmail s = true
      ↔ ∃ a b c : Str, s = a ++ "@".toList ++ b ++ ".".toList ++ c
          ∧ plainPart a = true ∧ plainPart b = true ∧ plainPart c = true)
    ∧ (isValidEmail s = true →
        s.count '@' = 1
        ∧ (∀ ch ∈ s, isWhiteSpace ch = false)
        ∧ ∃ pre mid post : Str, s = pre ++ '@' :: (mid ++ '.' :: post)
            ∧ '@' ∉ pre ∧ mid ≠ [] ∧ post ≠ []) := by
  refine ⟨isValidEmail_iff s, ?_⟩
  intro hv
  obtain ⟨a, b, c, rfl, ha, hb, hc⟩ := (isValidEmail_iff s).mp hv
  have ca := count_at_plainPart a ha
  have cb := count_at_plainPart b hb
  have cc := count_at_plainPart c hc
  rw [plainPart_iff] at ha hb hc
  refine ⟨?_, ?_, a, b, c, by simp, ?_, hb.1, hc.1⟩
  · simp [List.count_append, ca, cb, cc, List.count_cons]
  · intro ch hch
    simp only [List.mem_append, String.toList, List.mem_singleton] at hch
    rcases hch with (((h | h) | h) | h) | h
    · exact (ha.2 ch h).1
    · have e : ch = '@' := by simpa using h
      subst e; decide
    · exact (hb.2 ch h).1
    · have e : ch = '.' := by simpa using h
      subst e; decide
    · exact (hc.2 ch h).1
  · exact fun hm => (ha.2 _ hm).2 rfl

/-! ## Contact form -/

/-- Claim C2: when a required field is empty or the email does not satisfy
`isValidEmail`, the submit listener shows a message of type `error`, starts
its removal timer and changes nothing else: the form is not reset and no
success message is shown. -/
theorem submit_invalid_shows_error (s : Page) (form : ContactForm)
    (hform : s.contactForm = some form)
    (hbad : truthy (formGet form.name) = false ∨ truthy (formGet form.email) = false
      ∨ truthy (formGet form.subject) = false ∨ truthy (formGet form.message) = false
      ∨ isValidEmail (toJsString (formGet form.email)) = false) :
    ∃ text : Str, (text = fillFieldsText ∨ text = invalidEmailText)
      ∧ submitHandler s =
          { s with
            messages := ⟨"form-message error".toList, text, false⟩ :: s.messages.tail
            timers := s.timers ++
              [(5000, TimerAction.removeMessage ⟨"form-message error".toList, text, false⟩)] }
      ∧ (submitHandler s).contactForm = some form
      ∧ (submitHandler s).messages.head?
          = some ⟨"form-message error".toList, text, false⟩
      ∧ (s.messages.length ≤ 1 →
          (submitHandler s).messages = [⟨"form-message error".toList, text, false⟩]) := by
  have key : ∃ text : Str, (text = fillFieldsText ∨ text = invalidEmailText)
      ∧ submitHandler s =
          { s with
            messages := ⟨"form-message error".toList, text, false⟩ :: s.messages.tail
            timers := s.timers ++
              [(5000, TimerAction.removeMessage ⟨"form-message error".toList, text, false⟩)] } := by
    by_cases h1 : (!truthy (formGet form.name) || !truthy (formGet form.email)
        || !truthy (formGet form.subject) || !truthy (formGet form.message)) = true
    · refine ⟨fillFieldsText, Or.inl rfl, ?_⟩
      unfold submitHandler
      simp only [hform, h1, if_true]
      simp [showMessage, hform, errorType, successType]
    · refine ⟨invalidEmailText, Or.inr rfl, ?_⟩
      have h2 : isValidEmail (toJsString (formGet form.email)) = false := by
        rcases hbad with h | h | h | h | h
        · simp [h] at h1
        · simp [h] at h1
        · simp [h] at h1
        · simp [h] at h1
        · exact h
      unfold submitHandler
      simp only [hform, h1, h2]
      simp [showMessage, hform, errorType, successType]
  obtain ⟨text, ht, he⟩ := key
  refine ⟨text, ht, he, ?_, ?_, ?_⟩
  · rw [he]; exact hform
  · rw [he]; rfl
  · intro hl
    rw [he]
    simp only [List.cons.injEq, true_and]
    match hm : s.messages, hl with
    | [], _ => rfl
    | [_], _ => rfl

theorem formGet_reset (f : Option Field) :
    formGet (f.map (fun c => { c with value := c.defaultValue })) = f.map Field.defaultValue := by
  cases f <;> rfl

/-- Claim C3: when name, email, subject and message are non-empty and the
email satisfies `isValidEmail`, the submit listener shows the success message
and resets the form, every control returning to its default value, whatever
the company field holds. -/
theorem submit_valid_shows_success (s : Page) (form : ContactForm)
    (hform : s.contactForm = some form)
    (hname : truthy (formGet form.name) = true)
    (hemail : truthy (formGet form.email) = true)
    (hsubject : truthy (formGet form.subject) = true)
    (hmessage : truthy (formGet form.message) = true)
    (hvalid : isValidEmail (toJsString (formGet form.email)) = true) :
    submitHandler s =
        { s with
          messages := ⟨"form-message success".toList, thankYouText, true⟩ :: s.messages.tail
          timers := s.timers ++
            [(5000, TimerAction.removeMessage
              ⟨"form-message success".toList, thankYouText, true⟩)]
          contactForm := some form.reset }
      ∧ (submitHandler s).messages.head?
          = some ⟨"form-message success".toList, thankYouText, true⟩
      ∧ (submitHandler s).contactForm = some form.reset
      ∧ formGet form.reset.name = form.name.map Field.defaultValue
      ∧ formGet form.reset.email = form.email.map Field.defaultValue
      ∧ formGet form.reset.company = form.company.map Field.defaultValue
      ∧ formGet form.reset.subject = form.subject.map Field.defaultValue
      ∧ formGet form.reset.message = form.message.map Field.defaultValue := by
  have he : submitHandler s =
        { s with
          messages := ⟨"form-message success".toList, thankYouText, true⟩ :: s.messages.tail
          timers := s.timers ++
            [(5000, TimerAction.removeMessage
              ⟨"form-message success".toList, thankYouText, true⟩)]
          contactForm := some form.reset } := by
    unfold submitHandler
    simp only [hform, hname, hemail, hsubject, hmessage, hvalid]
    simp [showMessage, hform, successType]
  exact ⟨he, by rw [he]; rfl, by rw [he], formGet_reset form.name, formGet_reset form.email,
    formGet_reset form.company, formGet_reset form.subject, formGet_reset form.message⟩

/-- Witness for C3: the sample form, with the address `a@b.co` and an empty
company field. -/
theorem submit_valid_shows_success_witness :
    isValidEmail "a@b.co".toList = true
      ∧ (submitHandler samplePage).messages.head?
          = some ⟨"form-message success".toList, thankYouText, true⟩
      ∧ (submitHandler samplePage).contactForm = some sampleForm.reset :=
  ⟨by decide,
    (submit_valid_shows_success samplePage sampleForm rfl (by decide) (by decide) (by decide)
      (by decide) (by decide)).2.1,
    (submit_valid_shows_success samplePage sampleForm rfl (by decide) (by decide) (by decide)
      (by decide) (by decide)).2.2.1⟩

/-- Witness for C2: the sample form with an empty subject. -/
theorem submit_invalid_shows_error_witness :
    truthy (formGet incompleteForm.subject) = false
      ∧ ∃ text : Str, (text = fillFieldsText ∨ text = invalidEmailText)
          ∧ (submitHandler incompletePage).contactForm = some incompleteForm
          ∧ (submitHandler incompletePage).messages.head?
              = some ⟨"form-message error".toList, text, false⟩ := by
  obtain ⟨text, ht, _, hf, hm, _⟩ :=
    submit_invalid_shows_error incompletePage incompleteForm rfl
      (Or.inr (Or.inr (Or.inl rfl)))
  exact ⟨rfl, text, ht, hf, hm⟩

/-! ## Markup -/

theorem render_cons (t : Token) (m : Markup) : render (t :: m) = t.html ++ render m := rfl

theorem html_shown (t : Token) : (t.mapElement Element.shown).html = t.html := by
  cases t <;> rfl

theorem render_shown (m : Markup) : render (shown m) = render m := by
  induction m with
  | nil => rfl
  | cons t m ih =>
    show render (t.mapElement Element.shown :: shown m) = render (t :: m)
    rw [render_cons, render_cons, ih, html_shown]

theorem shown_forEachOf_addListener (c : Str) (h : Handler) (m : Markup) :
    shown (forEachOf c (fun e => e.addListener h) m) = shown m := by
  unfold shown forEachOf
  rw [List.map_map]
  apply List.map_congr_left
  intro t _
  cases t with
  | text s => rfl
  | closeTag tag => rfl
  | openTag tag e =>
    simp only [Function.comp, Token.mapElement]
    split_ifs <;> rfl

theorem shown_updateFirst_addListener (c : Str) (h : Handler) (m : Markup) :
    shown (updateFirst c (fun e => e.addListener h) m) = shown m := by
  induction m with
  | nil => rfl
  | cons t m ih =>
    cases t with
    | text s =>
      show Token.text s :: shown (updateFirst c _ m) = Token.text s :: shown m
      rw [ih]
    | closeTag tag =>
      show Token.closeTag tag :: shown (updateFirst c _ m) = Token.closeTag tag :: shown m
      rw [ih]
    | openTag tag e =>
      simp only [updateFirst]
      split_ifs
      · rfl
      · show Token.openTag tag e.shown :: shown (updateFirst c _ m)
            = Token.openTag tag e.shown :: shown m
        rw [ih]

theorem markLink_shown (cur : Str) (e : Element) :
    (markLink cur e).shown = markLink cur e.shown := by
  unfold markLink
  simp only [linkPage, Element.shown]
  split_ifs <;> rfl

theorem shown_forEachOf_markLink (c cur : Str) (m : Markup) :
    shown (forEachOf c (markLink cur) m) = forEachOf c (markLink cur) (shown m) := by
  unfold shown forEachOf
  rw [List.map_map, List.map_map]
  apply List.map_congr_left
  intro t _
  cases t with
  | text s => rfl
  | closeTag tag => rfl
  | openTag tag e =>
    simp only [Function.comp, Token.mapElement]
    have hc : e.shown.classes = e.classes := rfl
    rw [hc]
    split_ifs
    · rw [markLink_shown]
    · rfl

theorem classRemove_classAdd_classRemove (cs : List Str) (t : Str) :
    classRemove (classAdd (classRemove cs t) t) t = classRemove cs t := by
  have hn : t ∉ classRemove cs t := by simp [mem_classRemove]
  unfold classAdd
  rw [if_neg hn]
  simp [classRemove, List.filter_append, List.filter_filter]

theorem classRemove_idem (cs : List Str) (t : Str) :
    classRemove (classRemove cs t) t = classRemove cs t := by
  simp [classRemove, List.filter_filter]

theorem markLink_idem (cur : Str) (e : Element) :
    markLink cur (markLink cur e) = markLink cur e := by
  unfold markLink
  simp only [linkPage]
  by_cases h : pageMatches (jsOr e.href e.dataPage) cur = true
  · simp only [h, if_true, classRemove_classAdd_classRemove]
  · rw [if_neg h, if_neg h]
    simp only [classRemove_idem]

theorem markLink_keeps_class (cur c : Str) (e : Element) (hc : c ≠ active) :
    classContains (markLink cur e).classes c = classContains e.classes c := by
  unfold classContains
  simp only [markLink_other_tokens cur e c hc]

theorem forEachOf_markLink_idem (c cur : Str) (m : Markup) (hc : c ≠ active) :
    forEachOf c (markLink cur) (forEachOf c (markLink cur) m) = forEachOf c (markLink cur) m := by
  unfold forEachOf
  rw [List.map_map]
  apply List.map_congr_left
  intro t _
  cases t with
  | text s => rfl
  | closeTag tag => rfl
  | openTag tag e =>
    simp only [Function.comp, Token.mapElement]
    by_cases h : classContains e.classes c = true
    · simp only [h, if_true, markLink_keeps_class cur c e hc, markLink_idem]
    · rw [if_neg h, if_neg h]

theorem navLinkClass_ne_active : navLinkClass ≠ active := by decide


theorem render_forEachOf_markLink_of_unchanged (cur : Str) (m : Markup)
    (h : ∀ e ∈ querySelectorAll navLinkClass m, (markLink cur e).classes = e.classes) :
    render (forEachOf navLinkClass (markLink cur) m) = render m := by
  induction m with
  | nil => rfl
  | cons t m ih =>
    have hm : ∀ e ∈ querySelectorAll navLinkClass m, (markLink cur e).classes = e.classes := by
      intro e he
      apply h e
      cases t with
      | text s => exact he
      | closeTag tag => exact he
      | openTag tag e0 =>
        simp only [querySelectorAll, List.filterMap_cons, Token.element?] at he ⊢
        rw [List.filter_cons]
        split_ifs
        · exact List.mem_cons_of_mem _ he
        · exact he
    show render (_ :: forEachOf navLinkClass (markLink cur) m) = render (t :: m)
    rw [render_cons, render_cons, ih hm]
    congr 1
    cases t with
    | text s => rfl
    | closeTag tag => rfl
    | openTag tag e0 =>
      simp only [Token.mapElement]
      by_cases hc : classContains e0.classes navLinkClass = true
      · rw [if_pos hc]
        have hcl : (markLink cur e0).classes = e0.classes := by
          apply h
          simp only [querySelectorAll, List.filterMap_cons, Token.element?]
          rw [List.filter_cons, if_pos (by simpa using hc)]
          exact List.mem_cons_self _ _
        have hat := markLink_attrs cur e0
        simp only [Token.html, classAttr, hcl, hat.1, hat.2.1]
      · rw [if_neg hc]

theorem querySelectorAll_forEachOf_markLink (pathname : Str) (m : Markup) :
    querySelectorAll navLinkClass (forEachOf navLinkClass (markLink (currentPage pathname)) m)
      = setActiveNavigation pathname (querySelectorAll navLinkClass m) := by
  unfold setActiveNavigation
  induction m with
  | nil => rfl
  | cons t m ih =>
    cases t with
    | text s => exact ih
    | closeTag tag => exact ih
    | openTag tag e =>
      have ih' : List.filter (fun e => classContains e.classes navLinkClass)
          (List.filterMap Token.element?
            (forEachOf navLinkClass (markLink (currentPage pathname)) m))
          = List.map (markLink (currentPage pathname))
              (List.filter (fun e => classContains e.classes navLinkClass)
                (List.filterMap Token.element? m)) := ih
      simp only [querySelectorAll, forEachOf, List.map_cons, Token.mapElement,
        List.filterMap_cons, Token.element?]
      by_cases hc : classContains e.classes navLinkClass = true
      · have hk := markLink_keeps_class (currentPage pathname) navLinkClass e
          navLinkClass_ne_active
        rw [if_pos hc, List.filter_cons, List.filter_cons, if_pos (by rw [hk]; exact hc),
          if_pos hc, List.map_cons]
        congr 1
      · rw [if_neg hc, List.filter_cons, List.filter_cons, if_neg hc, if_neg hc]
        exact ih'

/-! ## Document-level passes -/

theorem document_setActiveNavigation_fields (s : Page) :
    s.setActiveNavigation.navbarNodes
        = s.navbarNodes.map (forEachOf navLinkClass (markLink (currentPage s.pathname)))
      ∧ s.setActiveNavigation.footerNodes
        = s.footerNodes.map (forEachOf navLinkClass (markLink (currentPage s.pathname)))
      ∧ s.setActiveNavigation.pathname = s.pathname
      ∧ s.setActiveNavigation.loadingScreen = s.loadingScreen
      ∧ s.setActiveNavigation.timers = s.timers :=
  ⟨rfl, rfl, rfl, rfl, rfl⟩

theorem onFirst_addListener_shown (s : Page) (c : Str) (h : Handler) :
    (s.onFirst c (fun e => e.addListener h)).navbarNodes.map shown = s.navbarNodes.map shown
      ∧ (s.onFirst c (fun e => e.addListener h)).footerNodes.map shown
          = s.footerNodes.map shown
      ∧ (s.onFirst c (fun e => e.addListener h)).pathname = s.pathname
      ∧ (s.onFirst c (fun e => e.addListener h)).loadingScreen = s.loadingScreen
      ∧ (s.onFirst c (fun e => e.addListener h)).timers = s.timers := by
  unfold Page.onFirst
  split_ifs
  · refine ⟨?_, rfl, rfl, rfl, rfl⟩
    cases hn : s.navbarNodes <;> simp [shown_updateFirst_addListener]
  · exact ⟨rfl, rfl, rfl, rfl, rfl⟩
  · refine ⟨rfl, ?_, rfl, rfl, rfl⟩
    cases hn : s.footerNodes <;> simp [shown_updateFirst_addListener]

theorem onEach_addListener_shown (s : Page) (c : Str) (h : Handler) :
    (s.onEach c (fun e => e.addListener h)).navbarNodes.map shown = s.navbarNodes.map shown
      ∧ (s.onEach c (fun e => e.addListener h)).footerNodes.map shown
          = s.footerNodes.map shown
      ∧ (s.onEach c (fun e => e.addListener h)).pathname = s.pathname
      ∧ (s.onEach c (fun e => e.addListener h)).loadingScreen = s.loadingScreen
      ∧ (s.onEach c (fun e => e.addListener h)).timers = s.timers := by
  unfold Page.onEach
  refine ⟨?_, ?_, rfl, rfl, rfl⟩
  · cases hn : s.navbarNodes <;> simp [shown_forEachOf_addListener]
  · cases hn : s.footerNodes <;> simp [shown_forEachOf_addListener]

theorem document_initializeMobileMenu_shown (s : Page) :
    s.initializeMobileMenu.navbarNodes.map shown = s.navbarNodes.map shown
      ∧ s.initializeMobileMenu.footerNodes.map shown = s.footerNodes.map shown
      ∧ s.initializeMobileMenu.pathname = s.pathname
      ∧ s.initializeMobileMenu.loadingScreen = s.loadingScreen
      ∧ s.initializeMobileMenu.timers = s.timers := by
  unfold Page.initializeMobileMenu
  split
  · obtain ⟨a1, a2, a3, a4, a5⟩ := onFirst_addListener_shown s hamburgerClass Handler.toggleMenu
    obtain ⟨b1, b2, b3, b4, b5⟩ := onEach_addListener_shown
      (s.onFirst hamburgerClass (fun e => e.addListener Handler.toggleMenu)) navLinkClass
      Handler.closeMenu
    exact ⟨b1.trans a1, b2.trans a2, b3.trans a3, b4.trans a4, b5.trans a5⟩
  · exact ⟨rfl, rfl, rfl, rfl, rfl⟩

theorem navbar_eq_of_shown (p : Page) (o : Option Markup)
    (h : p.navbarNodes.map shown = o.map shown) : p.navbar = o.map render := by
  unfold Page.navbar
  cases hp : p.navbarNodes with
  | none => cases o <;> simp [hp] at h ⊢
  | some m =>
    cases o with
    | none => simp [hp] at h
    | some m' =>
      simp only [hp, Option.map_some', Option.some.injEq] at h ⊢
      rw [← render_shown m, h, render_shown]

theorem footer_eq_of_shown (p : Page) (o : Option Markup)
    (h : p.footerNodes.map shown = o.map shown) : p.footer = o.map render := by
  unfold Page.footer
  cases hp : p.footerNodes with
  | none => cases o <;> simp [hp] at h ⊢
  | some m =>
    cases o with
    | none => simp [hp] at h
    | some m' =>
      simp only [hp, Option.map_some', Option.some.injEq] at h ⊢
      rw [← render_shown m, h, render_shown]


/-! ## Fragment loader and page reveal -/

theorem loadComponents_rejected (s : Page) (navbarFetch footerFetch : FetchOutcome)
    (h : navbarFetch = FetchOutcome.networkError ∨ footerFetch = FetchOutcome.networkError) :
    loadComponents s navbarFetch footerFetch = (s, false) := by
  rcases h with h | h
  · subst h; cases footerFetch <;> rfl
  · subst h; cases navbarFetch <;> rfl

/-- Claim C4 at a missing resource: when the request for `navbar.html` is
answered with status 404, `loadComponents` returns `true` and writes the body
of the error response into the navbar placeholder. -/
theorem loadComponents_missing_resource_injected :
    (loadComponents samplePage (FetchOutcome.response 404 notFoundBody)
        (FetchOutcome.response 200 footerFragment)).2 = true
      ∧ (loadComponents samplePage (FetchOutcome.response 404 notFoundBody)
        (FetchOutcome.response 200 footerFragment)).1.navbar
          = some "Not Found".toList
      ∧ (loadComponents samplePage (FetchOutcome.response 404 notFoundBody)
        (FetchOutcome.response 200 footerFragment)).1.footer
          = some "<p>footer</p>".toList
      ∧ samplePage.navbar = some "<nav></nav>".toList
      ∧ samplePage.footer = some []
      ∧ render notFoundBody = "Not Found".toList
      ∧ render footerFragment = "<p>footer</p>".toList := by
  decide

theorem loadComponents_fulfilled (s : Page) (st1 st2 : Nat) (navbarHTML footerHTML : Markup) :
    loadComponents s (FetchOutcome.response st1 navbarHTML)
        (FetchOutcome.response st2 footerHTML)
      = (({ s with
            navbarNodes := setInnerHTML s.navbarNodes navbarHTML
            footerNodes := setInnerHTML s.footerNodes footerHTML }
          : Page).setActiveNavigation.initializeMobileMenu, true) := rfl

theorem loadComponents_shown (s : Page) (st1 st2 : Nat) (navbarHTML footerHTML : Markup) :
    (loadComponents s (FetchOutcome.response st1 navbarHTML)
        (FetchOutcome.response st2 footerHTML)).1.navbarNodes.map shown
        = (s.navbarNodes.map (fun _ =>
            forEachOf navLinkClass (markLink (currentPage s.pathname)) navbarHTML)).map shown
      ∧ (loadComponents s (FetchOutcome.response st1 navbarHTML)
          (FetchOutcome.response st2 footerHTML)).1.footerNodes.map shown
        = (s.footerNodes.map (fun _ =>
            forEachOf navLinkClass (markLink (currentPage s.pathname)) footerHTML)).map shown
      ∧ (loadComponents s (FetchOutcome.response st1 navbarHTML)
          (FetchOutcome.response st2 footerHTML)).1.pathname = s.pathname
      ∧ (loadComponents s (FetchOutcome.response st1 navbarHTML)
          (FetchOutcome.response st2 footerHTML)).1.loadingScreen = s.loadingScreen
      ∧ (loadComponents s (FetchOutcome.response st1 navbarHTML)
          (FetchOutcome.response st2 footerHTML)).1.timers = s.timers := by
  rw [loadComponents_fulfilled]
  obtain ⟨w1, w2, w3, w4, w5⟩ := document_initializeMobileMenu_shown
    ({ s with
        navbarNodes := setInnerHTML s.navbarNodes navbarHTML
        footerNodes := setInnerHTML s.footerNodes footerHTML } : Page).setActiveNavigation
  refine ⟨?_, ?_, w3, w4, w5⟩
  · rw [w1]
    cases hn : s.navbarNodes <;> simp [Page.setActiveNavigation, Page.onEach, setInnerHTML, hn]
  · rw [w2]
    cases hn : s.footerNodes <;> simp [Page.setActiveNavigation, Page.onEach, setInnerHTML, hn]

theorem showPage_overlay (s : Page) :
    (showPage s).loadingScreen = s.loadingScreen.map (fun cs => classAdd cs hidden)
      ∧ (showPage s).timers
          = s.timers ++ s.loadingScreen.toList.map (fun _ => (300, TimerAction.removeLoadingScreen))
      ∧ (showPage s).navbarNodes = s.navbarNodes ∧ (showPage s).footerNodes = s.footerNodes
      ∧ (showPage s).pathname = s.pathname
      ∧ (showPage s).bodyClasses = classAdd s.bodyClasses loaded := by
  unfold showPage
  cases h : s.loadingScreen <;> simp [h]

theorem domContentLoaded_fulfilled (s : Page) (st1 st2 : Nat) (navbarHTML footerHTML : Markup) :
    domContentLoaded s (FetchOutcome.response st1 navbarHTML)
        (FetchOutcome.response st2 footerHTML)
      = ({ showPage (loadComponents s (FetchOutcome.response st1 navbarHTML)
              (FetchOutcome.response st2 footerHTML)).1 with
            submitWired :=
              (showPage (loadComponents s (FetchOutcome.response st1 navbarHTML)
                (FetchOutcome.response st2 footerHTML)).1).submitWired
              || (showPage (loadComponents s (FetchOutcome.response st1 navbarHTML)
                (FetchOutcome.response st2 footerHTML)).1).contactForm.isSome }
          : Page).setActiveNavigation := rfl

theorem shown_remark (cur : Str) (o : Option Markup) (frag : Markup) (p : Option Markup)
    (h : p.map shown
      = (o.map (fun _ => forEachOf navLinkClass (markLink cur) frag)).map shown) :
    (p.map (forEachOf navLinkClass (markLink cur))).map shown
      = (o.map (fun _ => forEachOf navLinkClass (markLink cur) frag)).map shown := by
  cases p with
  | none => cases o <;> simp at h ⊢
  | some m =>
    cases o with
    | none => simp at h
    | some m' =>
      simp only [Option.map_some', Option.some.injEq] at h ⊢
      rw [shown_forEachOf_markLink, h, ← shown_forEachOf_markLink,
        forEachOf_markLink_idem _ _ _ navLinkClass_ne_active]

theorem domContentLoaded_shown (s : Page) (st1 st2 : Nat) (navbarHTML footerHTML : Markup) :
    (domContentLoaded s (FetchOutcome.response st1 navbarHTML)
        (FetchOutcome.response st2 footerHTML)).navbarNodes.map shown
        = (s.navbarNodes.map (fun _ =>
            forEachOf navLinkClass (markLink (currentPage s.pathname)) navbarHTML)).map shown
      ∧ (domContentLoaded s (FetchOutcome.response st1 navbarHTML)
          (FetchOutcome.response st2 footerHTML)).footerNodes.map shown
        = (s.footerNodes.map (fun _ =>
            forEachOf navLinkClass (markLink (currentPage s.pathname)) footerHTML)).map shown
      ∧ (domContentLoaded s (FetchOutcome.response st1 navbarHTML)
          (FetchOutcome.response st2 footerHTML)).loadingScreen
        = s.loadingScreen.map (fun cs => classAdd cs hidden)
      ∧ (domContentLoaded s (FetchOutcome.response st1 navbarHTML)
          (FetchOutcome.response st2 footerHTML)).timers
        = s.timers
          ++ s.loadingScreen.toList.map (fun _ => (300, TimerAction.removeLoadingScreen)) := by
  obtain ⟨h1, h2, h3, h4, h5⟩ := loadComponents_shown s st1 st2 navbarHTML footerHTML
  obtain ⟨p1, p2, p3, p4, p5, _⟩ := showPage_overlay
    (loadComponents s (FetchOutcome.response st1 navbarHTML)
      (FetchOutcome.response st2 footerHTML)).1
  rw [domContentLoaded_fulfilled]
  refine ⟨?_, ?_, ?_, ?_⟩
  · show (Option.map (forEachOf navLinkClass (markLink (currentPage (showPage _).pathname)))
      (showPage _).navbarNodes).map shown = _
    rw [p5, p3, h3]
    exact shown_remark _ _ _ _ h1
  · show (Option.map (forEachOf navLinkClass (markLink (currentPage (showPage _).pathname)))
      (showPage _).footerNodes).map shown = _
    rw [p5, p4, h3]
    exact shown_remark _ _ _ _ h2
  · show (showPage _).loadingScreen = _
    rw [p1, h4]
  · show (showPage _).timers = _
    rw [p2, h4, h5]


/-- Claim C5 (amended): when both fetches are fulfilled `loadComponents`
returns `true` and each placeholder that exists has been given the fetched
fragment (an absent one is skipped); the marking pass that follows re-marks the
nav links inside it, so its content is the fetched fragment with its nav links
marked for the current page, and is the fetched text itself when the pass
changes the class of none of them; after the `DOMContentLoaded` listener the
content is the same, the loading overlay, when present, carries `hidden`, and
its removal is scheduled after 300 ms. -/
theorem loadComponents_injects_then_marks (s : Page) (st1 st2 : Nat)
    (navbarHTML footerHTML : Markup) :
    (loadComponents s (FetchOutcome.response st1 navbarHTML)
        (FetchOutcome.response st2 footerHTML)).2 = true
      ∧ (loadComponents s (FetchOutcome.response st1 navbarHTML)
          (FetchOutcome.response st2 footerHTML)).1.navbar
        = s.navbarNodes.map (fun _ =>
            render (forEachOf navLinkClass (markLink (currentPage s.pathname)) navbarHTML))
      ∧ (loadComponents s (FetchOutcome.response st1 navbarHTML)
          (FetchOutcome.response st2 footerHTML)).1.footer
        = s.footerNodes.map (fun _ =>
            render (forEachOf navLinkClass (markLink (currentPage s.pathname)) footerHTML))
      ∧ querySelectorAll navLinkClass
          (forEachOf navLinkClass (markLink (currentPage s.pathname)) navbarHTML)
        = setActiveNavigation s.pathname (querySelectorAll navLinkClass navbarHTML)
      ∧ ((∀ e ∈ querySelectorAll navLinkClass navbarHTML,
            (markLink (currentPage s.pathname) e).classes = e.classes) →
          (loadComponents s (FetchOutcome.response st1 navbarHTML)
            (FetchOutcome.response st2 footerHTML)).1.navbar
          = s.navbarNodes.map (fun _ => render navbarHTML))
      ∧ ((∀ e ∈ querySelectorAll navLinkClass footerHTML,
            (markLink (currentPage s.pathname) e).classes = e.classes) →
          (loadComponents s (FetchOutcome.response st1 navbarHTML)
            (FetchOutcome.response st2 footerHTML)).1.footer
          = s.footerNodes.map (fun _ => render footerHTML))
      ∧ (domContentLoaded s (FetchOutcome.response st1 navbarHTML)
          (FetchOutcome.response st2 footerHTML)).navbar
        = s.navbarNodes.map (fun _ =>
            render (forEachOf navLinkClass (markLink (currentPage s.pathname)) navbarHTML))
      ∧ (domContentLoaded s (FetchOutcome.response st1 navbarHTML)
          (FetchOutcome.response st2 footerHTML)).footer
        = s.footerNodes.map (fun _ =>
            render (forEachOf navLinkClass (markLink (currentPage s.pathname)) footerHTML))
      ∧ (domContentLoaded s (FetchOutcome.response st1 navbarHTML)
          (FetchOutcome.response st2 footerHTML)).loadingScreen
        = s.loadingScreen.map (fun cs => classAdd cs hidden)
      ∧ (∀ cs, (domContentLoaded s (FetchOutcome.response st1 navbarHTML)
          (FetchOutcome.response st2 footerHTML)).loadingScreen = some cs → hidden ∈ cs)
      ∧ (domContentLoaded s (FetchOutcome.response st1 navbarHTML)
          (FetchOutcome.response st2 footerHTML)).timers
        = s.timers
          ++ s.loadingScreen.toList.map (fun _ => (300, TimerAction.removeLoadingScreen))
      ∧ (runTimer (domContentLoaded s (FetchOutcome.response st1 navbarHTML)
          (FetchOutcome.response st2 footerHTML))
            TimerAction.removeLoadingScreen).loadingScreen = none := by
  obtain ⟨h1, h2, _, _, _⟩ := loadComponents_shown s st1 st2 navbarHTML footerHTML
  obtain ⟨d1, d2, d3, d4⟩ := domContentLoaded_shown s st1 st2 navbarHTML footerHTML
  have n1 := navbar_eq_of_shown _ _ h1
  have f1 := footer_eq_of_shown _ _ h2
  have n2 := navbar_eq_of_shown _ _ d1
  have f2 := footer_eq_of_shown _ _ d2
  rw [Option.map_map] at n1 f1 n2 f2
  refine ⟨rfl, n1, f1, querySelectorAll_forEachOf_markLink s.pathname navbarHTML, ?_, ?_,
    n2, f2, d3, ?_, d4, rfl⟩
  · intro hu
    rw [n1]
    cases s.navbarNodes with
    | none => rfl
    | some m =>
      simp only [Option.map_some', Function.comp]
      rw [render_forEachOf_markLink_of_unchanged _ _ hu]
  · intro hu
    rw [f1]
    cases s.footerNodes with
    | none => rfl
    | some m =>
      simp only [Option.map_some', Function.comp]
      rw [render_forEachOf_markLink_of_unchanged _ _ hu]
  · intro cs hcs
    rw [d3] at hcs
    cases hs : s.loadingScreen with
    | none => rw [hs] at hcs; simp at hcs
    | some cs0 =>
      rw [hs] at hcs
      simp only [Option.map_some', Option.some.injEq] at hcs
      subst hcs
      exact (mem_classAdd cs0 hidden hidden).mpr (Or.inr rfl)

/-- Claim C5 as stated fails on the home page: the fetched navbar text is
`<a class="nav-link" href="index.html">Home</a>`, and after `loadComponents`
the navbar placeholder holds the link with `active` added to its class. -/
theorem loadComponents_navbar_not_fetched_text :
    render homeLinkFragment = "<a class=\"nav-link\" href=\"index.html\">Home</a>".toList
      ∧ (loadComponents sampleHomePage (FetchOutcome.response 200 homeLinkFragment)
          (FetchOutcome.response 200 footerFragment)).1.navbar
        = some "<a class=\"nav-link active\" href=\"index.html\">Home</a>".toList
      ∧ ¬ ((loadComponents sampleHomePage (FetchOutcome.response 200 homeLinkFragment)
            (FetchOutcome.response 200 footerFragment)).2 = true
          ∧ (loadComponents sampleHomePage (FetchOutcome.response 200 homeLinkFragment)
            (FetchOutcome.response 200 footerFragment)).1.navbar
              = some (render homeLinkFragment)
          ∧ (loadComponents sampleHomePage (FetchOutcome.response 200 homeLinkFragment)
            (FetchOutcome.response 200 footerFragment)).1.footer
              = some (render footerFragment)) := by
  decide

/-! ## The document and the selected elements -/

theorem forEachOf_append (c : Str) (f : Element → Element) (a b : Markup) :
    forEachOf c f (a ++ b) = forEachOf c f a ++ forEachOf c f b := by
  simp [forEachOf]

theorem querySelectorAll_append (c : Str) (a b : Markup) :
    querySelectorAll c (a ++ b) = querySelectorAll c a ++ querySelectorAll c b := by
  simp [querySelectorAll]

theorem querySelectorAll_cons_openTag (c tag : Str) (e : Element) (m : Markup) :
    querySelectorAll c (Token.openTag tag e :: m)
      = if classContains e.classes c then e :: querySelectorAll c m
        else querySelectorAll c m := by
  simp only [querySelectorAll, List.filterMap_cons, Token.element?, List.filter_cons]

theorem querySelectorAll_cons_text (c s : Str) (m : Markup) :
    querySelectorAll c (Token.text s :: m) = querySelectorAll c m := rfl

theorem querySelectorAll_cons_closeTag (c tag : Str) (m : Markup) :
    querySelectorAll c (Token.closeTag tag :: m) = querySelectorAll c m := rfl

theorem updateFirst_of_none (c : Str) (f : Element → Element) (m : Markup)
    (h : querySelectorAll c m = []) : updateFirst c f m = m := by
  induction m with
  | nil => rfl
  | cons t m ih =>
    cases t with
    | text s => simp only [updateFirst]; rw [ih h]
    | closeTag tag => simp only [updateFirst]; rw [ih h]
    | openTag tag e =>
      rw [querySelectorAll_cons_openTag] at h
      by_cases hc : classContains e.classes c = true
      · rw [if_pos hc] at h; exact absurd h (by simp)
      · rw [if_neg hc] at h
        simp only [updateFirst, if_neg hc]
        rw [ih h]

theorem updateFirst_append (c : Str) (f : Element → Element) (a b : Markup) :
    updateFirst c f (a ++ b)
      = if (querySelector c a).isSome then updateFirst c f a ++ b
        else a ++ updateFirst c f b := by
  induction a with
  | nil => simp [querySelector, querySelectorAll]
  | cons t a ih =>
    cases t with
    | text s =>
      have e1 : updateFirst c f (Token.text s :: (a ++ b))
          = Token.text s :: updateFirst c f (a ++ b) := rfl
      have e2 : querySelector c (Token.text s :: a) = querySelector c a := rfl
      have e3 : updateFirst c f (Token.text s :: a) = Token.text s :: updateFirst c f a := rfl
      rw [List.cons_append, e1, e2, e3, ih]
      split_ifs <;> rfl
    | closeTag tag =>
      have e1 : updateFirst c f (Token.closeTag tag :: (a ++ b))
          = Token.closeTag tag :: updateFirst c f (a ++ b) := rfl
      have e2 : querySelector c (Token.closeTag tag :: a) = querySelector c a := rfl
      have e3 : updateFirst c f (Token.closeTag tag :: a)
          = Token.closeTag tag :: updateFirst c f a := rfl
      rw [List.cons_append, e1, e2, e3, ih]
      split_ifs <;> rfl
    | openTag tag e =>
      by_cases hc : classContains e.classes c = true
      · have e1 : updateFirst c f (Token.openTag tag e :: (a ++ b))
            = Token.openTag tag (f e) :: (a ++ b) := by
          simp only [updateFirst, if_pos hc]
        have e3 : updateFirst c f (Token.openTag tag e :: a)
            = Token.openTag tag (f e) :: a := by
          simp only [updateFirst, if_pos hc]
        have e2 : (querySelector c (Token.openTag tag e :: a)).isSome = true := by
          simp only [querySelector, querySelectorAll_cons_openTag, if_pos hc]
          rfl
        rw [List.cons_append, e1, e3, if_pos e2]
        rfl
      · have e1 : updateFirst c f (Token.openTag tag e :: (a ++ b))
            = Token.openTag tag e :: updateFirst c f (a ++ b) := by
          simp only [updateFirst, if_neg hc]
        have e3 : updateFirst c f (Token.openTag tag e :: a)
            = Token.openTag tag e :: updateFirst c f a := by
          simp only [updateFirst, if_neg hc]
        have e2 : querySelector c (Token.openTag tag e :: a) = querySelector c a := by
          simp only [querySelector, querySelectorAll_cons_openTag, if_neg hc]
        rw [List.cons_append, e1, e2, e3, ih]
        split_ifs <;> rfl

theorem document_onEach (s : Page) (c : Str) (f : Element → Element) :
    (s.onEach c f).document = forEachOf c f s.document := by
  unfold Page.onEach Page.document
  simp only [forEachOf_append]
  cases s.navbarNodes <;> cases s.footerNodes <;> simp [forEachOf]

theorem updateFirst_append_three (c : Str) (f : Element → Element) (a b d : Markup) :
    updateFirst c f (a ++ b ++ d)
      = if (querySelector c a).isSome then updateFirst c f a ++ b ++ d
        else if (querySelector c b).isSome then a ++ updateFirst c f b ++ d
        else a ++ b ++ updateFirst c f d := by
  rw [List.append_assoc, updateFirst_append c f a (b ++ d), updateFirst_append c f b d]
  by_cases h1 : (querySelector c a).isSome = true
  · rw [if_pos h1, if_pos h1, List.append_assoc]
  · rw [if_neg h1, if_neg h1]
    by_cases h2 : (querySelector c b).isSome = true
    · rw [if_pos h2, if_pos h2, List.append_assoc]
    · rw [if_neg h2, if_neg h2, List.append_assoc]

theorem getD_map_updateFirst (c : Str) (f : Element → Element) (o : Option Markup) :
    (o.map (updateFirst c f)).getD [] = updateFirst c f (o.getD []) := by
  cases o <;> rfl

theorem document_onFirst (s : Page) (c : Str) (f : Element → Element) :
    (s.onFirst c f).document = updateFirst c f s.document := by
  unfold Page.document
  rw [updateFirst_append_three]
  unfold Page.onFirst
  by_cases h1 : (querySelector c (s.navbarNodes.getD [])).isSome = true
  · rw [if_pos h1, if_pos h1]
    show (s.navbarNodes.map (updateFirst c f)).getD [] ++ s.bodyNodes ++ s.footerNodes.getD []
      = _
    rw [getD_map_updateFirst]
  · rw [if_neg h1, if_neg h1]
    by_cases h2 : (querySelector c s.bodyNodes).isSome = true
    · rw [if_pos h2, if_pos h2]
    · rw [if_neg h2, if_neg h2]
      show s.navbarNodes.getD [] ++ s.bodyNodes ++ (s.footerNodes.map (updateFirst c f)).getD []
        = _
      rw [getD_map_updateFirst]

theorem querySelectorAll_forEachOf_addListener (c c' : Str) (h : Handler) (m : Markup) :
    querySelectorAll c' (forEachOf c (fun e => e.addListener h) m)
      = (querySelectorAll c' m).map
          (fun e => if classContains e.classes c then e.addListener h else e) := by
  induction m with
  | nil => rfl
  | cons t m ih =>
    cases t with
    | text s => exact ih
    | closeTag tag => exact ih
    | openTag tag e =>
      have e1 : forEachOf c (fun e => e.addListener h) (Token.openTag tag e :: m)
          = Token.openTag tag (if classContains e.classes c then e.addListener h else e)
              :: forEachOf c (fun e => e.addListener h) m := rfl
      have e2 : (if classContains e.classes c then e.addListener h else e).classes
          = e.classes := by split_ifs <;> rfl
      rw [e1, querySelectorAll_cons_openTag, querySelectorAll_cons_openTag, e2, ih]
      by_cases hc' : classContains e.classes c' = true
      · rw [if_pos hc', if_pos hc', List.map_cons]
      · rw [if_neg hc', if_neg hc']

theorem querySelectorAll_updateFirst_same (c : Str) (h : Handler) (m : Markup) :
    querySelectorAll c (updateFirst c (fun e => e.addListener h) m)
      = match querySelectorAll c m with
        | [] => []
        | e :: es => e.addListener h :: es := by
  induction m with
  | nil => rfl
  | cons t m ih =>
    cases t with
    | text s => exact ih
    | closeTag tag => exact ih
    | openTag tag e =>
      by_cases hc : classContains e.classes c = true
      · have e1 : updateFirst c (fun e => e.addListener h) (Token.openTag tag e :: m)
            = Token.openTag tag (e.addListener h) :: m := by
          simp only [updateFirst, if_pos hc]
        have hc' : classContains (e.addListener h).classes c = true := hc
        rw [e1, querySelectorAll_cons_openTag, querySelectorAll_cons_openTag, if_pos hc,
          if_pos hc']
      · have e1 : updateFirst c (fun e => e.addListener h) (Token.openTag tag e :: m)
            = Token.openTag tag e :: updateFirst c (fun e => e.addListener h) m := by
          simp only [updateFirst, if_neg hc]
        rw [e1, querySelectorAll_cons_openTag, querySelectorAll_cons_openTag, if_neg hc,
          if_neg hc, ih]

theorem querySelectorAll_updateFirst_other (c c' : Str) (h : Handler) (m : Markup)
    (hd : ∀ e ∈ querySelectorAll c m, classContains e.classes c' = false) :
    querySelectorAll c' (updateFirst c (fun e => e.addListener h) m)
      = querySelectorAll c' m := by
  induction m with
  | nil => rfl
  | cons t m ih =>
    cases t with
    | text s => exact ih hd
    | closeTag tag => exact ih hd
    | openTag tag e =>
      by_cases hc : classContains e.classes c = true
      · have e1 : updateFirst c (fun e => e.addListener h) (Token.openTag tag e :: m)
            = Token.openTag tag (e.addListener h) :: m := by
          simp only [updateFirst, if_pos hc]
        have hn : classContains e.classes c' = false := by
          apply hd
          rw [querySelectorAll_cons_openTag, if_pos hc]
          exact List.mem_cons_self _ _
        have hn' : classContains (e.addListener h).classes c' = false := hn
        rw [e1, querySelectorAll_cons_openTag, querySelectorAll_cons_openTag, hn, hn']
        rfl
      · have e1 : updateFirst c (fun e => e.addListener h) (Token.openTag tag e :: m)
            = Token.openTag tag e :: updateFirst c (fun e => e.addListener h) m := by
          simp only [updateFirst, if_neg hc]
        have hd' : ∀ e ∈ querySelectorAll c m, classContains e.classes c' = false := by
          intro x hx
          apply hd
          rw [querySelectorAll_cons_openTag, if_neg hc]
          exact hx
        rw [e1, querySelectorAll_cons_openTag, querySelectorAll_cons_openTag, ih hd']

theorem mem_querySelectorAll_class (c : Str) (m : Markup) (e : Element)
    (h : e ∈ querySelectorAll c m) : classContains e.classes c = true := by
  unfold querySelectorAll at h
  exact (List.mem_filter.mp h).2

/-- The nav links of the document after the document-level marking pass are
the nav links before it, passed through `setActiveNavigation`. -/
theorem navDom_setActiveNavigation (s : Page) :
    s.setActiveNavigation.navDom.navLinks
      = setActiveNavigation s.pathname s.navDom.navLinks := by
  show querySelectorAll navLinkClass (s.onEach navLinkClass _).document = _
  rw [document_onEach]
  exact querySelectorAll_forEachOf_markLink s.pathname s.document

/-- On a document whose hamburger, menu and nav links are distinct elements the
document-level wiring agrees with `initializeMobileMenu` on the selected
elements. -/
theorem navDom_initializeMobileMenu (s : Page)
    (h1 : ∀ e ∈ querySelectorAll hamburgerClass s.document,
      classContains e.classes navLinkClass = false)
    (h2 : ∀ e ∈ querySelectorAll hamburgerClass s.document,
      classContains e.classes navMenuClass = false)
    (h3 : ∀ e ∈ querySelectorAll navMenuClass s.document,
      classContains e.classes navLinkClass = false) :
    s.initializeMobileMenu.navDom = initializeMobileMenu s.navDom := by
  unfold Page.initializeMobileMenu initializeMobileMenu
  cases hh : querySelector hamburgerClass s.document with
  | none => simp only [Page.navDom, hh]
  | some hb =>
    cases hm : querySelector navMenuClass s.document with
    | none => simp only [Page.navDom, hh, hm]
    | some mn =>
      simp only [Page.navDom, hh, hm]
      rw [document_onEach, document_onFirst]
      simp only [querySelector, querySelectorAll_forEachOf_addListener,
        querySelectorAll_updateFirst_other _ _ _ _ h1,
        querySelectorAll_updateFirst_other _ _ _ _ h2, querySelectorAll_updateFirst_same]
      unfold querySelector at hh hm
      cases hq : querySelectorAll hamburgerClass s.document with
      | nil => rw [hq] at hh; simp at hh
      | cons e es =>
        rw [hq] at hh
        simp only [List.head?_cons, Option.some.injEq] at hh
        subst hh
        have hn : classContains e.classes navLinkClass = false :=
          h1 e (by rw [hq]; exact List.mem_cons_self _ _)
        have hn' : classContains (e.addListener Handler.toggleMenu).classes navLinkClass
            = false := hn
        cases hqm : querySelectorAll navMenuClass s.document with
        | nil => rw [hqm] at hm; simp at hm
        | cons m0 ms =>
          rw [hqm] at hm
          simp only [List.head?_cons, Option.some.injEq] at hm
          subst hm
          have hmn : classContains m0.classes navLinkClass = false :=
            h3 m0 (by rw [hqm]; exact List.mem_cons_self _ _)
          simp only [List.map_cons, List.head?_cons, hn', hmn, Bool.false_eq_true, if_false,
            NavDom.mk.injEq, true_and]
          apply List.map_congr_left
          intro l hl
          rw [if_pos (mem_querySelectorAll_class _ _ _ hl)]

/-! ## Typewriter -/

theorem charAt_eq (text : Str) (i : Nat) : charAt text i = (text[i]?).toList := by
  unfold charAt
  rw [List.get?_eq_getElem?]
  cases text[i]? <;> rfl

theorem typeStep_lt (text : Str) (t : Typing) (h : t.i < text.length) :
    typeStep text t =
      { textContent := t.textContent ++ charAt text t.i, i := t.i + 1,
        pending := t.pending + 1, invocations := t.invocations + 1 } := by
  unfold typeStep
  simp [h]

theorem typeStep_ge (text : Str) (t : Typing) (h : text.length ≤ t.i) :
    typeStep text t = { t with invocations := t.invocations + 1 } := by
  unfold typeStep
  simp [Nat.not_lt.mpr h]

theorem runTicks_closed (initial text : Str) (k : Nat) :
    runTicks initial text k =
      { textContent := text.take (k + 1), i := min (k + 1) text.length,
        pending := if k < text.length then 1 else 0,
        invocations := min (k + 1) (text.length + 1) } := by
  induction k with
  | zero =>
    unfold runTicks typeWriter
    simp only [Function.iterate_zero, id_eq]
    by_cases h : 0 < text.length
    · rw [typeStep_lt _ _ h]
      simp [typeWriterStart, charAt_eq, List.take_succ, h, Nat.succ_le_of_lt h]
    · rw [typeStep_ge _ _ (Nat.not_lt.mp h)]
      have h0 : text = [] := List.eq_nil_of_length_eq_zero (by omega)
      subst h0
      simp [typeWriterStart]
  | succ k ih =>
    unfold runTicks at ih ⊢
    rw [Function.iterate_succ_apply', ih]
    unfold tick
    by_cases h : k < text.length
    · simp only [h, if_true, Nat.lt_irrefl, Nat.zero_lt_one, Nat.sub_self]
      by_cases h2 : k + 1 < text.length
      · rw [typeStep_lt _ _ (by simp only [Nat.min_def]; split_ifs <;> omega)]
        simp only [charAt_eq, h2, if_true]
        have e1 : min (k + 1) text.length = k + 1 := by omega
        have e2 : min (k + 1) (text.length + 1) = k + 1 := by omega
        have e3 : min (k + 1 + 1) text.length = k + 1 + 1 := by omega
        have e4 : min (k + 1 + 1) (text.length + 1) = k + 1 + 1 := by omega
        rw [e1, e2, e3, e4, ← List.take_succ]
      · have e1 : min (k + 1) text.length = k + 1 := by omega
        have e2 : min (k + 1) (text.length + 1) = k + 1 := by omega
        have e3 : min (k + 1 + 1) text.length = k + 1 := by omega
        have e4 : min (k + 1 + 1) (text.length + 1) = k + 1 + 1 := by omega
        rw [typeStep_ge _ _ (by simp only [e1]; omega)]
        simp only [h2, if_false, e1, e2, e3, e4]
        rw [List.take_of_length_le (by omega), List.take_of_length_le (by omega)]
    · have e1 : min (k + 1) text.length = text.length := by omega
      have e2 : min (k + 1) (text.length + 1) = text.length + 1 := by omega
      have e3 : min (k + 1 + 1) text.length = text.length := by omega
      have e4 : min (k + 1 + 1) (text.length + 1) = text.length + 1 := by omega
      have h2 : ¬ (k + 1 < text.length) := by omega
      simp only [h, h2, if_false, Nat.lt_irrefl, e1, e2, e3, e4]
      rw [List.take_of_length_le (by omega), List.take_of_length_le (by omega)]

/-- Claim C9: `typeWriter` empties the element whatever it held; after `j`
runs of `type` (`1 ≤ j ≤ n`) the content is the first `j` characters of the
text and one timer is pending; run `n + 1` changes neither content nor counter
and schedules nothing, so there are exactly `n + 1` runs and the content ends
equal to the text. -/
theorem typeWriter_runs (initial text : Str) :
    (typeWriterStart initial).textContent = []
      ∧ (typeWriterStart initial).invocations = 0
      ∧ (∀ k, runTicks initial text k =
          { textContent := text.take (k + 1), i := min (k + 1) text.length,
            pending := if k < text.length then 1 else 0,
            invocations := min (k + 1) (text.length + 1) })
      ∧ (∀ j, 1 ≤ j → j ≤ text.length →
          (runTicks initial text (j - 1)).invocations = j
          ∧ (runTicks initial text (j - 1)).textContent = text.take j
          ∧ (runTicks initial text (j - 1)).pending = 1)
      ∧ (runTicks initial text text.length).invocations = text.length + 1
      ∧ (runTicks initial text text.length).textContent = text
      ∧ (runTicks initial text text.length).pending = 0
      ∧ (∀ k, text.length ≤ k → runTicks initial text k = runTicks initial text text.length) := by
  refine ⟨rfl, rfl, runTicks_closed initial text, ?_, ?_, ?_, ?_, ?_⟩
  · intro j h1 hj
    rw [runTicks_closed]
    have e : j - 1 + 1 = j := by omega
    have hlt : j - 1 < text.length := by omega
    refine ⟨?_, ?_, ?_⟩
    · simp only [e]; omega
    · simp only [e]
    · simp only [hlt, if_true]
  · rw [runTicks_closed]; simp
  · rw [runTicks_closed]; simp
  · rw [runTicks_closed]; simp
  · intro k hk
    rw [runTicks_closed, runTicks_closed]
    have e1 : min (k + 1) text.length = text.length := by omega
    have e2 : min (k + 1) (text.length + 1) = text.length + 1 := by omega
    have e3 : min (text.length + 1) text.length = text.length := by omega
    have h2 : ¬ (k < text.length) := by omega
    simp only [h2, if_false, Nat.lt_irrefl, e1, e2, e3, Nat.min_self]
    rw [List.take_of_length_le (by omega), List.take_of_length_le (by omega)]

end PageBootstrapper
